import Mathlib

/-!
Shallow embedding of the khayalkids personalized-media generation pipeline.

Each definition below is translated from one function of the Python source
(the source file and function are named in its doc comment).  External
effects (network calls, DeepFace/YOLO model inference, the filesystem, the
database) are passed in as explicit arguments: every `await`/library-call
boundary of the source becomes an oracle argument, and the definition
reproduces the deterministic control flow of the source around those
boundaries.

Euclidean distances between face embeddings are represented by their
squares over `ℚ` (`sqDist`): since every distance is nonnegative, squaring
is strictly monotone, so the argmin selection and the comparison against
the similarity threshold 8.0 in the source correspond exactly to the argmin
selection over squared distances and comparison against 64.
-/

namespace Khayal

/-! ## Identity matcher: services/face_detection_service.py -/

/-- A person bounding box in pixel coordinates, as stored in the
`person_regions` dictionaries of `detect_person_regions`. -/
structure Region where
  x1 : Int
  y1 : Int
  x2 : Int
  y2 : Int
deriving DecidableEq

/-- A raw YOLO detection: a box plus its predicted class id
(class 0 is the person class). -/
structure RawBox where
  x1 : Int
  y1 : Int
  x2 : Int
  y2 : Int
  cls : Nat
deriving DecidableEq

/-- `FaceDetectionService.PADDING_PERCENT` (source line 18).  The constant
is declared in the source; whether it is ever applied is settled by the
claim C7 theorems. -/
def PADDING_PERCENT : ℚ := 3 / 10

/-- `FaceDetectionService.SIMILARITY_THRESHOLD` (source line 19). -/
def SIMILARITY_THRESHOLD : ℚ := 8

/-- The square of `SIMILARITY_THRESHOLD`; distances are modelled by their
squares, see the module doc comment. -/
def SIMILARITY_THRESHOLD_SQ : ℚ := 64

/-- The fixed `pad = 2` pixel padding applied inside
`detect_person_regions` (source lines 67-79), clamped to the image bounds. -/
def padClamp (width height : Int) (b : RawBox) : Region :=
  { x1 := max 0 (b.x1 - 2)
    y1 := max 0 (b.y1 - 2)
    x2 := min width (b.x2 + 2)
    y2 := min height (b.y2 + 2) }

/-- `FaceDetectionService.detect_person_regions`: keep the YOLO boxes whose
class is the person class (0) and pad each by two pixels within the image
bounds.  `det = none` models the `except` branch (a detector error yields
`[]`); it also covers the empty-detection early returns, which coincide
with filtering an empty list. -/
def detect_person_regions (width height : Int) (det : Option (List RawBox)) : List Region :=
  match det with
  | none => []
  | some boxes => (boxes.filter (fun b => b.cls = 0)).map (padClamp width height)

/-- Squared Euclidean distance between two embedding vectors, the square of
`np.linalg.norm(a - b)` of the source. -/
def sqDist (a b : List ℚ) : ℚ :=
  (List.zipWith (fun x y => (x - y) * (x - y)) a b).foldl (fun s t => s + t) 0

/-- Squared norm of the difference between a reference set and one
encoding.  The preview workflow passes a single averaged reference vector
(a one-element set here); the full-book workflow passes the whole list of
reference vectors, which numpy broadcasting turns into the Frobenius norm
of the stacked differences, i.e. the sum of the squared per-reference
distances. -/
def refSetSqDist (refs : List (List ℚ)) (enc : List ℚ) : ℚ :=
  (refs.map (fun r => sqDist r enc)).foldl (fun s t => s + t) 0

/-- One iteration of the best-match loop of `isolate_protagonist_face`
(source lines 134-178): if the DeepFace calls produced an embedding for
this region, compare its distance against the best so far (strictly
smaller wins, the initial best is `+inf`, modelled by `none`). -/
def bestMatchStep (refs : List (List ℚ)) (faceEmb : Nat → Option (List ℚ))
    (best : Option (Nat × Region × ℚ)) (i : Nat) (r : Region) :
    Option (Nat × Region × ℚ) :=
  match faceEmb i with
  | none => best
  | some enc =>
      match best with
      | none => some (i, r, refSetSqDist refs enc)
      | some b =>
          if refSetSqDist refs enc < b.2.2 then some (i, r, refSetSqDist refs enc)
          else some b

/-- The loop of the multi-region branch: walk the region list with its
running index (the `index` field of the `person_regions` dictionaries),
threading the best match so far. -/
def bestMatchAux (refs : List (List ℚ)) (faceEmb : Nat → Option (List ℚ)) :
    Nat → Option (Nat × Region × ℚ) → List Region → Option (Nat × Region × ℚ)
  | _, best, [] => best
  | i, best, r :: rs =>
      bestMatchAux refs faceEmb (i + 1) (bestMatchStep refs faceEmb best i r) rs

/-- The best (region, reference-set) match over all detected regions.
`faceEmb i = none` models a region in which `DeepFace.extract_faces`
found no face, `DeepFace.represent` returned nothing, or either call
raised (the source `continue`s in all three cases). -/
def bestMatch (regions : List Region) (refs : List (List ℚ))
    (faceEmb : Nat → Option (List ℚ)) : Option (Nat × Region × ℚ) :=
  bestMatchAux refs faceEmb 0 none regions

/-- The dictionary returned by `isolate_protagonist_face` on acceptance:
the path of the persisted crop, the reported distance (squared here) and
the pixel coordinates of the cropped region. -/
structure MatchResult where
  cropped_path : String
  distSq : ℚ
  coordinates : Region
deriving DecidableEq

/-- The body of `isolate_protagonist_face` once the image has been loaded
(its width and height known).  A single detected region is accepted
immediately with distance `0.0` and no embedding comparison; multiple
regions go through `bestMatch` and the best is rejected only when its
distance is strictly above the threshold (`best_distance > 8.0` in the
source, line 185). -/
def isolateLoaded (full_image_path : String) (w h : Int)
    (det : Option (List RawBox)) (faceEmb : Nat → Option (List ℚ))
    (refs : List (List ℚ)) : Option MatchResult :=
  match detect_person_regions w h det with
  | [] => none
  | [r] => some { cropped_path := "crop_" ++ full_image_path, distSq := 0, coordinates := r }
  | r1 :: r2 :: rest =>
    match bestMatch (r1 :: r2 :: rest) refs faceEmb with
    | none => none
    | some b =>
      if SIMILARITY_THRESHOLD_SQ < b.2.2 then none
      else some { cropped_path := "crop_" ++ full_image_path, distSq := b.2.2,
                  coordinates := b.2.1 }

/-- `FaceDetectionService.isolate_protagonist_face` (source lines 94-214).
`loaded` is the `cv2.imread` outcome (image width and height, or `none` on
load failure, which the source answers with `None`); `det` is the YOLO
outcome as in `detect_person_regions`; `faceEmb` the per-region DeepFace
outcome.  The outer `except` of the source never fires in the model since
every failure source is already an explicit oracle. -/
def isolate_protagonist_face (full_image_path : String) (loaded : Option (Int × Int))
    (det : Option (List RawBox)) (faceEmb : Nat → Option (List ℚ))
    (refs : List (List ℚ)) : Option MatchResult :=
  match loaded with
  | none => none
  | some wh => isolateLoaded full_image_path wh.1 wh.2 det faceEmb refs

/-- Modelled from the spec, for comparison only (claim C7): expand a
bounding box by the fixed percentage padding `PADDING_PERCENT` of its own
width and height on each side, clamped to the image bounds.  This is what
step 5 of the Identity Matcher algorithm in the spec describes; it is
compared against what `detect_person_regions` actually persists. -/
def spec_padded_region (width height x1 y1 x2 y2 : ℚ) : ℚ × ℚ × ℚ × ℚ :=
  (max 0 (x1 - PADDING_PERCENT * (x2 - x1)),
   max 0 (y1 - PADDING_PERCENT * (y2 - y1)),
   min width (x2 + PADDING_PERCENT * (x2 - x1)),
   min height (y2 + PADDING_PERCENT * (y2 - y1)))

/-- Unfolding lemma: a loaded image delegates to `isolateLoaded`. -/
theorem isolate_some (p : String) (w h : Int) (det : Option (List RawBox))
    (faceEmb : Nat → Option (List ℚ)) (refs : List (List ℚ)) :
    isolate_protagonist_face p (some (w, h)) det faceEmb refs =
      isolateLoaded p w h det faceEmb refs := rfl

/-- Unfolding lemma: no detected region yields no match. -/
theorem isolateLoaded_nil {p : String} {w h : Int} {det : Option (List RawBox)}
    {faceEmb : Nat → Option (List ℚ)} {refs : List (List ℚ)}
    (hdet : detect_person_regions w h det = []) :
    isolateLoaded p w h det faceEmb refs = none := by
  unfold isolateLoaded
  rw [hdet]

/-- Unfolding lemma: the single-region branch of `isolateLoaded`. -/
theorem isolateLoaded_single {p : String} {w h : Int} {det : Option (List RawBox)}
    {faceEmb : Nat → Option (List ℚ)} {refs : List (List ℚ)} {r : Region}
    (hdet : detect_person_regions w h det = [r]) :
    isolateLoaded p w h det faceEmb refs =
      some { cropped_path := "crop_" ++ p, distSq := 0, coordinates := r } := by
  unfold isolateLoaded
  rw [hdet]

/-- Unfolding lemma: the multiple-region branch of `isolateLoaded`. -/
theorem isolateLoaded_multi {p : String} {w h : Int} {det : Option (List RawBox)}
    {faceEmb : Nat → Option (List ℚ)} {refs : List (List ℚ)}
    {r1 r2 : Region} {rest : List Region}
    (hdet : detect_person_regions w h det = r1 :: r2 :: rest) :
    isolateLoaded p w h det faceEmb refs =
      (match bestMatch (r1 :: r2 :: rest) refs faceEmb with
       | none => none
       | some b =>
         if SIMILARITY_THRESHOLD_SQ < b.2.2 then none
         else some { cropped_path := "crop_" ++ p, distSq := b.2.2,
                     coordinates := b.2.1 }) := by
  unfold isolateLoaded
  rw [hdet]

/-- Unfolding lemma: a region without a usable embedding is skipped. -/
theorem bestMatchStep_skip {refs : List (List ℚ)} {faceEmb : Nat → Option (List ℚ)}
    {best : Option (Nat × Region × ℚ)} {i : Nat} {r : Region}
    (hemb : faceEmb i = none) : bestMatchStep refs faceEmb best i r = best := by
  unfold bestMatchStep
  rw [hemb]

/-- Unfolding lemma: the first comparable region becomes the running best. -/
theorem bestMatchStep_first {refs : List (List ℚ)} {faceEmb : Nat → Option (List ℚ)}
    {i : Nat} {r : Region} {enc : List ℚ} (hemb : faceEmb i = some enc) :
    bestMatchStep refs faceEmb none i r = some (i, r, refSetSqDist refs enc) := by
  unfold bestMatchStep
  rw [hemb]

/-- Unfolding lemma: a later comparable region replaces the running best
exactly when its distance is strictly smaller. -/
theorem bestMatchStep_compare {refs : List (List ℚ)} {faceEmb : Nat → Option (List ℚ)}
    {i : Nat} {r : Region} {enc : List ℚ} {a : Nat × Region × ℚ}
    (hemb : faceEmb i = some enc) :
    bestMatchStep refs faceEmb (some a) i r =
      (if refSetSqDist refs enc < a.2.2 then some (i, r, refSetSqDist refs enc)
       else some a) := by
  unfold bestMatchStep
  rw [hemb]

/-- The region selected by `bestMatch` is one of the detected regions. -/
theorem bestMatch_region_mem (regions : List Region) (refs : List (List ℚ))
    (faceEmb : Nat → Option (List ℚ)) (b : Nat × Region × ℚ)
    (h : bestMatch regions refs faceEmb = some b) : b.2.1 ∈ regions := by
  have key : ∀ (rs : List Region) (i : Nat) (acc : Option (Nat × Region × ℚ)),
      (∀ r ∈ rs, r ∈ regions) →
      (∀ c, acc = some c → c.2.1 ∈ regions) →
      bestMatchAux refs faceEmb i acc rs = some b → b.2.1 ∈ regions := by
    intro rs
    induction rs with
    | nil =>
        intro i acc _ hacc hfold
        exact hacc b hfold
    | cons r rs ih =>
        intro i acc hmem hacc hfold
        refine ih (i + 1) (bestMatchStep refs faceEmb acc i r)
          (fun y hy => hmem y (List.mem_cons_of_mem r hy)) ?_ hfold
        intro c hc
        rcases hemb : faceEmb i with _ | enc
        · rw [bestMatchStep_skip hemb] at hc
          exact hacc c hc
        · rcases hax : acc with _ | a
          · rw [hax, bestMatchStep_first hemb] at hc
            simp only [Option.some.injEq] at hc
            subst hc
            exact hmem r (List.mem_cons_self r rs)
          · rw [hax, bestMatchStep_compare hemb] at hc
            by_cases hlt : refSetSqDist refs enc < a.2.2
            · rw [if_pos hlt] at hc
              simp only [Option.some.injEq] at hc
              subst hc
              exact hmem r (List.mem_cons_self r rs)
            · rw [if_neg hlt] at hc
              simp only [Option.some.injEq] at hc
              subst hc
              exact hacc a hax
  have h0 : ∀ c : Nat × Region × ℚ, (none : Option (Nat × Region × ℚ)) = some c →
      c.2.1 ∈ regions := by
    intro c hc
    exact Option.noConfusion hc
  exact key regions 0 none (fun r hr => hr) h0 h

/-- C6: for a candidate image with exactly one detected region, the
matcher accepts that region immediately with reported distance 0.0; the
result does not depend on the per-region embedding outcomes or on the
reference embeddings, so no embedding comparison takes place. -/
theorem c6_single_region_short_circuit (p : String) (w h : Int)
    (det : Option (List RawBox)) (faceEmb : Nat → Option (List ℚ))
    (refs : List (List ℚ)) (r : Region)
    (hdet : detect_person_regions w h det = [r]) :
    isolate_protagonist_face p (some (w, h)) det faceEmb refs =
      some { cropped_path := "crop_" ++ p, distSq := 0, coordinates := r } := by
  rw [isolate_some, isolateLoaded_single hdet]

/-- Witness for `c6_single_region_short_circuit`: a single person box is
accepted with distance 0 even though its embedding ([99]) is far from the
reference ([0]). -/
theorem c6_single_region_short_circuit_witness :
    isolate_protagonist_face ("img.png") (some (1000, 1000))
      (some [{ x1 := 10, y1 := 10, x2 := 50, y2 := 50, cls := 0 }])
      (fun _ => some [99]) [[0]] =
      some { cropped_path := "crop_img.png", distSq := 0,
             coordinates := { x1 := 8, y1 := 8, x2 := 52, y2 := 52 } } :=
  c6_single_region_short_circuit ("img.png") 1000 1000
    (some [{ x1 := 10, y1 := 10, x2 := 50, y2 := 50, cls := 0 }])
    (fun _ => some [99]) [[0]]
    { x1 := 8, y1 := 8, x2 := 52, y2 := 52 } (by decide)

/-- C5 counterexample: two detected regions whose best match sits at
distance exactly 8.0 (squared distance 64, embedding [0] against reference
[8]).  That distance is not below the threshold 8.0, yet
`isolate_protagonist_face` accepts the match, because the source only
rejects on `best_distance > SIMILARITY_THRESHOLD`. -/
theorem c5_boundary_distance_accepted :
    isolate_protagonist_face ("img.png") (some (1000, 1000))
      (some [{ x1 := 2, y1 := 2, x2 := 100, y2 := 100, cls := 0 },
             { x1 := 300, y1 := 300, x2 := 400, y2 := 400, cls := 0 }])
      (fun i => if i = 0 then some [0] else some [100]) [[8]] =
      some { cropped_path := "crop_img.png", distSq := 64,
             coordinates := { x1 := 0, y1 := 0, x2 := 102, y2 := 102 } }
    ∧ ¬ ((64 : ℚ) < SIMILARITY_THRESHOLD_SQ) := by
  have hdet : detect_person_regions 1000 1000
      (some [{ x1 := 2, y1 := 2, x2 := 100, y2 := 100, cls := 0 },
             { x1 := 300, y1 := 300, x2 := 400, y2 := 400, cls := 0 }]) =
      [{ x1 := 0, y1 := 0, x2 := 102, y2 := 102 },
       { x1 := 298, y1 := 298, x2 := 402, y2 := 402 }] := by
    decide
  have hb : bestMatch
      [({ x1 := 0, y1 := 0, x2 := 102, y2 := 102 } : Region),
       { x1 := 298, y1 := 298, x2 := 402, y2 := 402 }] [[8]]
      (fun i => if i = 0 then some [0] else some [100]) =
      some (0, { x1 := 0, y1 := 0, x2 := 102, y2 := 102 }, 64) := by
    norm_num [bestMatch, bestMatchAux, bestMatchStep, refSetSqDist, sqDist]
  constructor
  · rw [isolate_some, isolateLoaded_multi hdet, hb]
    decide
  · decide

/-- C5 (amended): in the multiple-region case the matcher accepts the best
(region, reference) match if and only if its distance is at most the
similarity threshold 8.0 (squared: 64): a best distance equal to the
threshold is accepted, and only a strictly larger one yields no match. -/
theorem c5_threshold_at_most (p : String) (w h : Int) (det : Option (List RawBox))
    (faceEmb : Nat → Option (List ℚ)) (refs : List (List ℚ))
    (r1 r2 : Region) (rest : List Region) (b : Nat × Region × ℚ)
    (hdet : detect_person_regions w h det = r1 :: r2 :: rest)
    (hbest : bestMatch (r1 :: r2 :: rest) refs faceEmb = some b) :
    (b.2.2 ≤ SIMILARITY_THRESHOLD_SQ →
      isolate_protagonist_face p (some (w, h)) det faceEmb refs =
        some { cropped_path := "crop_" ++ p, distSq := b.2.2, coordinates := b.2.1 })
    ∧ (SIMILARITY_THRESHOLD_SQ < b.2.2 →
      isolate_protagonist_face p (some (w, h)) det faceEmb refs = none) := by
  constructor
  · intro hle
    rw [isolate_some, isolateLoaded_multi hdet, hbest]
    show (if SIMILARITY_THRESHOLD_SQ < b.2.2 then (none : Option MatchResult)
          else some ({ cropped_path := "crop_" ++ p, distSq := b.2.2,
                       coordinates := b.2.1 } : MatchResult)) = _
    rw [if_neg (not_lt.mpr hle)]
  · intro hgt
    rw [isolate_some, isolateLoaded_multi hdet, hbest]
    show (if SIMILARITY_THRESHOLD_SQ < b.2.2 then (none : Option MatchResult)
          else some ({ cropped_path := "crop_" ++ p, distSq := b.2.2,
                       coordinates := b.2.1 } : MatchResult)) = _
    rw [if_pos hgt]

/-- Witness for `c5_threshold_at_most`: with two regions and a best
squared distance of 0 (at most the threshold) the match is accepted. -/
theorem c5_threshold_at_most_witness :
    isolate_protagonist_face ("w.png") (some (500, 500))
      (some [{ x1 := 10, y1 := 10, x2 := 60, y2 := 60, cls := 0 },
             { x1 := 200, y1 := 200, x2 := 260, y2 := 260, cls := 0 }])
      (fun i => if i = 0 then some [0] else none) [[0]] =
      some { cropped_path := "crop_w.png", distSq := 0,
             coordinates := { x1 := 8, y1 := 8, x2 := 62, y2 := 62 } } :=
  (c5_threshold_at_most ("w.png") 500 500
    (some [{ x1 := 10, y1 := 10, x2 := 60, y2 := 60, cls := 0 },
           { x1 := 200, y1 := 200, x2 := 260, y2 := 260, cls := 0 }])
    (fun i => if i = 0 then some [0] else none) [[0]]
    { x1 := 8, y1 := 8, x2 := 62, y2 := 62 }
    { x1 := 198, y1 := 198, x2 := 262, y2 := 262 } []
    (0, { x1 := 8, y1 := 8, x2 := 62, y2 := 62 }, 0)
    (by decide)
    (by norm_num [bestMatch, bestMatchAux, bestMatchStep, refSetSqDist, sqDist])).1
    (by decide)

/-- C7 counterexample: for a 100x100 person box at (100,100) in a
1000x1000 image, the accepted match persists coordinates (98,98,202,202),
the fixed two-pixel padding of `detect_person_regions`, whereas expanding
the box by the declared `PADDING_PERCENT` (30 percent per side, clamped)
would give (70,70,230,230).  The percentage padding of the spec is never
applied. -/
theorem c7_percentage_padding_not_applied :
    (isolate_protagonist_face ("img.png") (some (1000, 1000))
        (some [{ x1 := 100, y1 := 100, x2 := 200, y2 := 200, cls := 0 }])
        (fun _ => none) [] =
      some { cropped_path := "crop_img.png", distSq := 0,
             coordinates := { x1 := 98, y1 := 98, x2 := 202, y2 := 202 } })
    ∧ spec_padded_region 1000 1000 100 100 200 200 = (70, 70, 230, 230)
    ∧ ((98 : ℚ), (98 : ℚ), (202 : ℚ), (202 : ℚ)) ≠
        ((70 : ℚ), (70 : ℚ), (230 : ℚ), (230 : ℚ)) := by
  refine ⟨?_, ?_, ?_⟩
  · rw [isolate_some,
      isolateLoaded_single (by decide : detect_person_regions 1000 1000
        (some [{ x1 := 100, y1 := 100, x2 := 200, y2 := 200, cls := 0 }]) =
        [{ x1 := 98, y1 := 98, x2 := 202, y2 := 202 }])]
    decide
  · simp only [spec_padded_region, PADDING_PERCENT, max_def, min_def]
    norm_num
  · decide

/-- C7 (amended): each accepted person region is the original YOLO box
expanded by a fixed two-pixel padding clamped to the image bounds (not by
a percentage), applied at detection time; on acceptance the matcher
persists the crop of that region (under a crop_ prefix of the image path)
together with its pixel coordinates. -/
theorem c7_fixed_two_pixel_padding :
    (∀ (w h : Int) (bs : List RawBox) (b : RawBox), b ∈ bs → b.cls = 0 →
      ({ x1 := max 0 (b.x1 - 2), y1 := max 0 (b.y1 - 2),
         x2 := min w (b.x2 + 2), y2 := min h (b.y2 + 2) } : Region) ∈
        detect_person_regions w h (some bs))
    ∧ (∀ (p : String) (w h : Int) (det : Option (List RawBox))
        (faceEmb : Nat → Option (List ℚ)) (refs : List (List ℚ)) (res : MatchResult),
        isolate_protagonist_face p (some (w, h)) det faceEmb refs = some res →
        res.coordinates ∈ detect_person_regions w h det ∧
          res.cropped_path = "crop_" ++ p) := by
  constructor
  · intro w h bs b hb hcls
    unfold detect_person_regions
    exact List.mem_map_of_mem (padClamp w h) (List.mem_filter.mpr ⟨hb, by simp [hcls]⟩)
  · intro p w h det faceEmb refs res hres
    rw [isolate_some] at hres
    rcases hdet : detect_person_regions w h det with _ | ⟨r1, tl⟩
    · rw [isolateLoaded_nil hdet] at hres
      exact Option.noConfusion hres
    · rcases tl with _ | ⟨r2, rest⟩
      · rw [isolateLoaded_single hdet] at hres
        simp only [Option.some.injEq] at hres
        subst hres
        exact ⟨List.mem_singleton.mpr rfl, rfl⟩
      · rw [isolateLoaded_multi hdet] at hres
        rcases hbest : bestMatch (r1 :: r2 :: rest) refs faceEmb with _ | b
        · rw [hbest] at hres
          exact Option.noConfusion hres
        · rw [hbest] at hres
          have hres3 : (if SIMILARITY_THRESHOLD_SQ < b.2.2 then none
              else some { cropped_path := "crop_" ++ p, distSq := b.2.2,
                          coordinates := b.2.1 }) = some res := hres
          by_cases hgt : SIMILARITY_THRESHOLD_SQ < b.2.2
          · rw [if_pos hgt] at hres3
            exact Option.noConfusion hres3
          · rw [if_neg hgt] at hres3
            simp only [Option.some.injEq] at hres3
            subst hres3
            exact ⟨bestMatch_region_mem (r1 :: r2 :: rest) refs faceEmb b hbest, rfl⟩

/-- Witness for `c7_fixed_two_pixel_padding`: a concrete accepted match
whose persisted coordinates are among the two-pixel padded regions. -/
theorem c7_fixed_two_pixel_padding_witness :
    ({ x1 := 98, y1 := 98, x2 := 202, y2 := 202 } : Region) ∈
      detect_person_regions 1000 1000
        (some [{ x1 := 100, y1 := 100, x2 := 200, y2 := 200, cls := 0 }]) ∧
    ("crop_img.png" : String) = "crop_" ++ "img.png" := by
  have h := c7_fixed_two_pixel_padding.2 ("img.png") 1000 1000
    (some [{ x1 := 100, y1 := 100, x2 := 200, y2 := 200, cls := 0 }])
    (fun _ => none) []
    { cropped_path := "crop_img.png", distSq := 0,
      coordinates := { x1 := 98, y1 := 98, x2 := 202, y2 := 202 } }
    (by rw [isolate_some,
          isolateLoaded_single (by decide : detect_person_regions 1000 1000
            (some [{ x1 := 100, y1 := 100, x2 := 200, y2 := 200, cls := 0 }]) =
            [{ x1 := 98, y1 := 98, x2 := 202, y2 := 202 }])]
        decide)
  exact h

/-! ## Image extractor: services/pptx_service.py -/

/-- A slide shape as far as extraction is concerned: an embedded picture
(carrying its stable `shape_id` and whether its bytes can be decoded), a
group of nested shapes, or any other shape kind. -/
inductive Shape where
  | pic (shapeId : Nat) (decodable : Bool)
  | group (children : List Shape)
  | other

/-- One record of `PPTXService.extract_images_from_slides`:
`{slide_idx, shape_id, file_path}`. -/
structure ExtractRec where
  slide_idx : Nat
  shape_id : Nat
  file_path : String
deriving DecidableEq

/-- The deterministic scratch filename `slide{slide_idx}_shape{shape_id}.png`
of `_extract_from_shapes` (source line 54). -/
def extract_filename (slide_idx shape_id : Nat) : String :=
  "slide" ++ toString slide_idx ++ "_shape" ++ toString shape_id ++ ".png"

mutual
/-- `PPTXService._extract_from_shapes` on a single shape: a picture whose
bytes decode is recorded (and written to the scratch directory); a picture
whose decoding raises is logged and skipped; a group is recursed into;
other shapes are ignored. -/
def extract_from_shape (slide_idx : Nat) : Shape → List ExtractRec
  | Shape.pic sid dec =>
      if dec then
        [{ slide_idx := slide_idx, shape_id := sid,
           file_path := extract_filename slide_idx sid }]
      else []
  | Shape.group cs => extract_from_shapes slide_idx cs
  | Shape.other => []
/-- `PPTXService._extract_from_shapes` over a shape list (source lines
48-76), in order. -/
def extract_from_shapes (slide_idx : Nat) : List Shape → List ExtractRec
  | [] => []
  | s :: rest => extract_from_shape slide_idx s ++ extract_from_shapes slide_idx rest
end

/-- The slide loop of `extract_images_from_slides`: `enumerate` over the
slides to process, starting at index `i`. -/
def extractSlidesAux (i : Nat) : List (List Shape) → List ExtractRec
  | [] => []
  | s :: rest => extract_from_shapes i s ++ extractSlidesAux (i + 1) rest

/-- `PPTXService.extract_images_from_slides` (source lines 20-45).  The
slides to process are `list(prs.slides)[:max_slides] if max_slides else
prs.slides` - note the Python truthiness test: a `max_slides` of 0 behaves
like no limit at all. -/
def extract_images_from_slides (slides : List (List Shape)) (max_slides : Option Nat) :
    List ExtractRec :=
  match max_slides with
  | some n => if n = 0 then extractSlidesAux 0 slides else extractSlidesAux 0 (slides.take n)
  | none => extractSlidesAux 0 slides

mutual
/-- The shape ids of all embedded pictures of one shape (nested to any
depth), decodable or not. -/
def pic_ids_shape : Shape → List Nat
  | Shape.pic sid _ => [sid]
  | Shape.group cs => pic_ids cs
  | Shape.other => []
/-- The shape ids of all embedded pictures of a shape list. -/
def pic_ids : List Shape → List Nat
  | [] => []
  | s :: rest => pic_ids_shape s ++ pic_ids rest
end

mutual
/-- The shape ids of the decodable embedded pictures of one shape. -/
def decodable_pic_ids_shape : Shape → List Nat
  | Shape.pic sid dec => if dec then [sid] else []
  | Shape.group cs => decodable_pic_ids cs
  | Shape.other => []
/-- The shape ids of the decodable embedded pictures of a shape list. -/
def decodable_pic_ids : List Shape → List Nat
  | [] => []
  | s :: rest => decodable_pic_ids_shape s ++ decodable_pic_ids rest
end

mutual
/-- Whether every embedded picture of one shape decodes. -/
def all_decodable_shape : Shape → Bool
  | Shape.pic _ dec => dec
  | Shape.group cs => all_decodable cs
  | Shape.other => true
/-- Whether every embedded picture of a shape list decodes. -/
def all_decodable : List Shape → Bool
  | [] => true
  | s :: rest => all_decodable_shape s && all_decodable rest
end

/-- Modelled from the spec (claim C9): the pages included by the optional
page limit - all pages when no limit is given, else the first
`max_slides` pages. -/
def spec_included_slides (slides : List (List Shape)) : Option Nat → List (List Shape)
  | none => slides
  | some k => slides.take k

mutual
theorem extract_map_id_shape (i : Nat) (s : Shape) :
    (extract_from_shape i s).map (fun r => r.shape_id) = decodable_pic_ids_shape s := by
  cases s with
  | pic sid dec =>
      cases dec
      · simp [extract_from_shape, decodable_pic_ids_shape]
      · simp [extract_from_shape, decodable_pic_ids_shape]
  | group cs => exact extract_map_id i cs
  | other => simp [extract_from_shape, decodable_pic_ids_shape]
theorem extract_map_id (i : Nat) (l : List Shape) :
    (extract_from_shapes i l).map (fun r => r.shape_id) = decodable_pic_ids l := by
  cases l with
  | nil => simp [extract_from_shapes, decodable_pic_ids]
  | cons s rest =>
      show ((extract_from_shape i s ++ extract_from_shapes i rest).map (fun r => r.shape_id)) = _
      rw [List.map_append, extract_map_id_shape i s, extract_map_id i rest]
      rfl
end

mutual
theorem extract_slide_idx_shape (i : Nat) (s : Shape) :
    ∀ r ∈ extract_from_shape i s, r.slide_idx = i := by
  cases s with
  | pic sid dec =>
      cases dec
      · intro r hr
        simp [extract_from_shape] at hr
      · intro r hr
        simp [extract_from_shape] at hr
        rw [hr]
  | group cs => exact extract_slide_idx i cs
  | other =>
      intro r hr
      simp [extract_from_shape] at hr
theorem extract_slide_idx (i : Nat) (l : List Shape) :
    ∀ r ∈ extract_from_shapes i l, r.slide_idx = i := by
  cases l with
  | nil =>
      intro r hr
      simp [extract_from_shapes] at hr
  | cons s rest =>
      intro r hr
      rcases List.mem_append.mp hr with h | h
      · exact extract_slide_idx_shape i s r h
      · exact extract_slide_idx i rest r h
end

mutual
theorem decodable_sublist_shape (s : Shape) :
    List.Sublist (decodable_pic_ids_shape s) (pic_ids_shape s) := by
  cases s with
  | pic sid dec =>
      cases dec
      · simp [decodable_pic_ids_shape, pic_ids_shape]
      · simp [decodable_pic_ids_shape, pic_ids_shape]
  | group cs => exact decodable_sublist cs
  | other => simp [decodable_pic_ids_shape, pic_ids_shape]
theorem decodable_sublist (l : List Shape) :
    List.Sublist (decodable_pic_ids l) (pic_ids l) := by
  cases l with
  | nil => simp [decodable_pic_ids, pic_ids]
  | cons s rest =>
      show List.Sublist (decodable_pic_ids_shape s ++ decodable_pic_ids rest)
        (pic_ids_shape s ++ pic_ids rest)
      exact List.Sublist.append (decodable_sublist_shape s) (decodable_sublist rest)
end

mutual
theorem decodable_eq_pic_ids_shape (s : Shape) (h : all_decodable_shape s = true) :
    decodable_pic_ids_shape s = pic_ids_shape s := by
  cases s with
  | pic sid dec =>
      have hd : dec = true := h
      rw [hd]
      rfl
  | group cs => exact decodable_eq_pic_ids cs h
  | other => rfl
theorem decodable_eq_pic_ids (l : List Shape) (h : all_decodable l = true) :
    decodable_pic_ids l = pic_ids l := by
  cases l with
  | nil => rfl
  | cons s rest =>
      have hs : all_decodable_shape s = true ∧ all_decodable rest = true := by
        have := h
        rw [show all_decodable (s :: rest) = (all_decodable_shape s && all_decodable rest)
          from rfl] at this
        exact And.intro (Bool.and_elim_left this) (Bool.and_elim_right this)
      show decodable_pic_ids_shape s ++ decodable_pic_ids rest =
        pic_ids_shape s ++ pic_ids rest
      rw [decodable_eq_pic_ids_shape s hs.1, decodable_eq_pic_ids rest hs.2]
end

theorem extract_length (i : Nat) (l : List Shape) :
    (extract_from_shapes i l).length = (decodable_pic_ids l).length := by
  have h := extract_map_id i l
  have := congrArg List.length h
  rw [List.length_map] at this
  exact this

theorem extractSlidesAux_length (slides : List (List Shape)) :
    ∀ i : Nat, (extractSlidesAux i slides).length =
      (slides.map (fun s => (decodable_pic_ids s).length)).sum := by
  induction slides with
  | nil =>
      intro i
      rfl
  | cons s rest ih =>
      intro i
      show (extract_from_shapes i s ++ extractSlidesAux (i + 1) rest).length = _
      rw [List.length_append, extract_length i s, ih (i + 1)]
      rfl

theorem extractSlidesAux_slide_lb (slides : List (List Shape)) :
    ∀ (i : Nat) (r : ExtractRec), r ∈ extractSlidesAux i slides → i ≤ r.slide_idx := by
  induction slides with
  | nil =>
      intro i r hr
      simp [extractSlidesAux] at hr
  | cons s rest ih =>
      intro i r hr
      rcases List.mem_append.mp hr with h | h
      · rw [extract_slide_idx i s r h]
      · exact Nat.le_of_succ_le (ih (i + 1) r h)

theorem extractSlidesAux_keys_nodup (slides : List (List Shape))
    (hnd : ∀ s ∈ slides, (pic_ids s).Nodup) :
    ∀ i : Nat,
      ((extractSlidesAux i slides).map (fun r => (r.slide_idx, r.shape_id))).Nodup := by
  induction slides with
  | nil =>
      intro i
      simp [extractSlidesAux]
  | cons s rest ih =>
      intro i
      show ((extract_from_shapes i s ++ extractSlidesAux (i + 1) rest).map
        (fun r => (r.slide_idx, r.shape_id))).Nodup
      rw [List.map_append]
      refine List.Nodup.append ?_
        (ih (fun t ht => hnd t (List.mem_cons_of_mem s ht)) (i + 1)) ?_
      · have hcong : (extract_from_shapes i s).map (fun r => (r.slide_idx, r.shape_id)) =
            (extract_from_shapes i s).map (fun r => (i, r.shape_id)) := by
          apply List.map_congr_left
          intro r hr
          rw [extract_slide_idx i s r hr]
        rw [hcong, show ((extract_from_shapes i s).map (fun r => (i, r.shape_id))) =
          (((extract_from_shapes i s).map (fun r => r.shape_id)).map (fun x => (i, x)))
          from (List.map_map _ _ _).symm, extract_map_id i s]
        have hinj : Function.Injective (fun x : Nat => ((i, x) : Nat × Nat)) := by
          intro a b hab
          simpa using hab
        exact (((decodable_sublist s).nodup (hnd s (List.mem_cons_self s rest)))).map hinj
      · intro a ha hb
        rcases List.mem_map.mp ha with ⟨r, hr, hkey⟩
        rcases List.mem_map.mp hb with ⟨q, hq, hkeyq⟩
        have h1 : a.1 = i := by
          rw [← hkey]
          exact extract_slide_idx i s r hr
        have h2 : i + 1 ≤ a.1 := by
          rw [← hkeyq]
          exact extractSlidesAux_slide_lb rest (i + 1) q hq
        omega

/-- C9 counterexample: with a page limit of 0 the spec includes no pages
at all (K = 0 embedded pictures), yet `extract_images_from_slides` falls
into the Python-truthiness branch and extracts every picture of every
slide, returning one record instead of zero. -/
theorem c9_limit_zero_extracts_all :
    spec_included_slides [[Shape.pic 1 true]] (some 0) = [] ∧
    extract_images_from_slides [[Shape.pic 1 true]] (some 0) =
      [{ slide_idx := 0, shape_id := 1, file_path := "slide0_shape1.png" }] ∧
    extract_images_from_slides [[Shape.pic 1 true]] (some 0) ≠ [] := by
  refine ⟨rfl, ?_, ?_⟩
  · decide
  · decide

/-- C9 (amended): for a positive page limit the extractor walks exactly the
first `k` slides (all slides when the limit is absent; a limit of 0 is
treated as no limit); every record of slide `i` carries `slide_idx = i` and
the record shape ids of one slide are exactly its decodable picture ids in
order (an undecodable picture is skipped without failing extraction as a
whole, pictures nested in groups are found at any depth); when every
picture decodes the number of records equals the number K of embedded
pictures on the processed pages; and when shape ids are unique within each
slide all (slide_idx, shape_id) pairs are pairwise distinct. -/
theorem c9_extraction_complete_unique :
    (∀ (slides : List (List Shape)) (k : Nat), 0 < k →
      extract_images_from_slides slides (some k) = extractSlidesAux 0 (slides.take k))
    ∧ (∀ slides : List (List Shape),
      extract_images_from_slides slides none = extractSlidesAux 0 slides)
    ∧ (∀ (i : Nat) (l : List Shape),
      (extract_from_shapes i l).map (fun r => r.shape_id) = decodable_pic_ids l)
    ∧ (∀ (i : Nat) (l : List Shape), ∀ r ∈ extract_from_shapes i l, r.slide_idx = i)
    ∧ (∀ slides : List (List Shape), (∀ s ∈ slides, all_decodable s = true) →
      (extract_images_from_slides slides none).length =
        (slides.map (fun s => (pic_ids s).length)).sum)
    ∧ (∀ slides : List (List Shape), (∀ s ∈ slides, (pic_ids s).Nodup) →
      ((extract_images_from_slides slides none).map
        (fun r => (r.slide_idx, r.shape_id))).Nodup) := by
  refine ⟨?_, ?_, extract_map_id, extract_slide_idx, ?_, ?_⟩
  · intro slides k hk
    show (if k = 0 then extractSlidesAux 0 slides
          else extractSlidesAux 0 (slides.take k)) = _
    rw [if_neg (Nat.pos_iff_ne_zero.mp hk)]
  · intro slides
    rfl
  · intro slides hdec
    show (extractSlidesAux 0 slides).length = _
    rw [extractSlidesAux_length slides 0]
    congr 1
    apply List.map_congr_left
    intro s hs
    rw [decodable_eq_pic_ids s (hdec s hs)]
  · intro slides hnd
    exact extractSlidesAux_keys_nodup slides hnd 0

/-- Witness for `c9_extraction_complete_unique`: a two-slide document with
a picture nested in a group; the limit 1 keeps only the first slide, the
record count matches the picture count and the keys are distinct. -/
theorem c9_extraction_complete_unique_witness :
    extract_images_from_slides
        [[Shape.group [Shape.pic 4 true]], [Shape.pic 7 true]] (some 1) =
      extractSlidesAux 0 ([[Shape.group [Shape.pic 4 true]], [Shape.pic 7 true]].take 1) ∧
    (extract_images_from_slides [[Shape.group [Shape.pic 4 true]], [Shape.pic 7 true]]
        none).length =
      ([[Shape.group [Shape.pic 4 true]], [Shape.pic 7 true]].map
        (fun s => (pic_ids s).length)).sum ∧
    ((extract_images_from_slides [[Shape.group [Shape.pic 4 true]], [Shape.pic 7 true]]
        none).map (fun r => (r.slide_idx, r.shape_id))).Nodup := by
  refine ⟨?_, ?_, ?_⟩
  · exact c9_extraction_complete_unique.1
      [[Shape.group [Shape.pic 4 true]], [Shape.pic 7 true]] 1 (by decide)
  · exact c9_extraction_complete_unique.2.2.2.2.1
      [[Shape.group [Shape.pic 4 true]], [Shape.pic 7 true]] (by decide)
  · exact c9_extraction_complete_unique.2.2.2.2.2
      [[Shape.group [Shape.pic 4 true]], [Shape.pic 7 true]] (by decide)

/-! ## Error-message truncation: utils/file_utils.py -/

/-- The whitespace characters stripped by Python `str.strip()` (the ASCII
ones that occur in error messages). -/
def pyIsSpace (c : Char) : Bool :=
  c == ' ' || c == Char.ofNat 10 || c == Char.ofNat 9 || c == Char.ofNat 13

/-- Python `str.strip()`: drop leading and trailing whitespace. -/
def pyStrip (s : String) : String :=
  String.mk (((s.toList.dropWhile pyIsSpace).reverse.dropWhile pyIsSpace).reverse)

/-- Strategy 1 of `truncate_error_message`: the position one past the
first period that is followed by a space, newline or carriage return
(`none` when there is no such period, Python -1). -/
def firstSentenceEnd : List Char → Nat → Option Nat
  | [], _ => none
  | [_], _ => none
  | c1 :: c2 :: rest, i =>
      if c1 == '.' && (c2 == ' ' || c2 == Char.ofNat 10 || c2 == Char.ofNat 13) then
        some (i + 1)
      else firstSentenceEnd (c2 :: rest) (i + 1)

/-- Strategy 2 of `truncate_error_message`: the position of the second
newline (`none` when there are fewer than two, Python -1). -/
def secondNewlinePos : List Char → Nat → Nat → Option Nat
  | [], _, _ => none
  | c :: rest, i, cnt =>
      if c == Char.ofNat 10 then
        if cnt == 1 then some i else secondNewlinePos rest (i + 1) (cnt + 1)
      else secondNewlinePos rest (i + 1) cnt

/-- `utils.file_utils.truncate_error_message` (source lines 120-178): cut
at the earliest of the first sentence end, the second newline and
`max_length`, strip the cut prefix, and append an ellipsis when something
was actually cut off.  `None` and the empty string are returned as-is; a
string of pure whitespace becomes `None`. -/
def truncate_error_message (message : Option String) (max_length : Nat) : Option String :=
  match message with
  | none => none
  | some s =>
    if s = "" then some s
    else
      let t := pyStrip s
      if t = "" then none
      else
        let cs := t.toList
        let fse := (firstSentenceEnd cs 0).getD 0
        let snp := (secondNewlinePos cs 0 0).getD 0
        let cuts := ([fse, snp, max_length]).filter (fun p => 0 < p)
        match cuts.min? with
        | some cut =>
            let truncated := pyStrip (String.mk (cs.take cut))
            if cut < cs.length then some (truncated ++ "...") else some truncated
        | none => some (String.mk (cs.take max_length))

/-! ## Persistence rows and repositories:
repositories/preview_repo.py and repositories/generated_book_repo.py -/

/-- One row of the `previews` table (the columns the core touches).
`swapped_images_paths` is stored as a JSON array or NULL; the model keeps
the parsed value, with `none` for NULL. -/
structure PreviewRow where
  id : Nat
  book_id : Nat
  preview_token : String
  child_name : String
  original_photo_path : String
  preview_status : String
  swapped_images_paths : Option (List String)
  error_message : Option String
  cartoon_photo_path : Option String
  expires_at : Nat
deriving DecidableEq

namespace PreviewRepository

/-- `PreviewRepository.create_preview` (source lines 14-37): the INSERT
writes status `processing` and the caller-supplied expiry. -/
def create_preview (book_id : Nat) (preview_token child_name original_photo_path : String)
    (expires_at : Nat) (cartoon_photo_path : Option String) (new_id : Nat) : PreviewRow :=
  { id := new_id, book_id := book_id, preview_token := preview_token,
    child_name := child_name, original_photo_path := original_photo_path,
    preview_status := "processing", swapped_images_paths := none,
    error_message := none, cartoon_photo_path := cartoon_photo_path,
    expires_at := expires_at }

/-- `PreviewRepository.get_by_token` (source lines 40-50): a plain SELECT
by token with no expiry filter (the JSON parse is the identity here). -/
def get_by_token (db : List PreviewRow) (token : String) : Option PreviewRow :=
  db.find? (fun r => r.preview_token == token)

/-- `PreviewRepository.update_status` (source lines 58-83): one UPDATE that
overwrites `preview_status`, `swapped_images_paths`, `error_message` and
`cartoon_photo_path` together.  `images_json = json.dumps(paths) if paths
else None`: a `None` or empty list is stored as NULL.  No truncation is
applied to `error_message` here. -/
def update_status (row : PreviewRow) (status : String)
    (swapped_images_paths : Option (List String)) (error_message : Option String)
    (cartoon_photo_path : Option String) : PreviewRow :=
  { row with
    preview_status := status,
    swapped_images_paths :=
      match swapped_images_paths with
      | some (p :: ps) => some (p :: ps)
      | _ => none,
    error_message := error_message,
    cartoon_photo_path := cartoon_photo_path }

end PreviewRepository

/-- One row of the `generated_books` table (the columns the core touches). -/
structure GeneratedBookRow where
  order_id : Nat
  generation_status : String
  error_message : Option String
  characters_completed : Nat
  estimated_time_minutes : Nat
  final_pptx_path : Option String
  final_pdf_path : Option String
  swapped_images_paths : Option (List String)
deriving DecidableEq

namespace GeneratedBookRepository

/-- `GeneratedBookRepository.update_status` (source lines 46-63): unlike
the preview repository, the error message is passed through
`truncate_error_message` (default `max_length` 250) before the UPDATE. -/
def update_status (row : GeneratedBookRow) (status : String)
    (error_message : Option String) : GeneratedBookRow :=
  { row with generation_status := status,
             error_message := truncate_error_message error_message 250 }

/-- `GeneratedBookRepository.mark_processing_started` (source lines 85-95). -/
def mark_processing_started (row : GeneratedBookRow) : GeneratedBookRow :=
  { row with generation_status := "processing" }

/-- `GeneratedBookRepository.update_progress` (source lines 65-83). -/
def update_progress (row : GeneratedBookRow) (characters_completed : Nat)
    (estimated_time_minutes : Nat) : GeneratedBookRow :=
  { row with characters_completed := characters_completed,
             estimated_time_minutes := estimated_time_minutes }

/-- `GeneratedBookRepository.update_final_paths` (source lines 97-123):
writes the artifact paths and marks the row completed in one UPDATE. -/
def update_final_paths (row : GeneratedBookRow) (final_pptx_path final_pdf_path : String)
    (swapped_images_paths : List String) : GeneratedBookRow :=
  { row with final_pptx_path := some final_pptx_path,
             final_pdf_path := some final_pdf_path,
             swapped_images_paths := some swapped_images_paths,
             generation_status := "completed" }

end GeneratedBookRepository

/-! ## Preview API read paths: api/previews.py -/

/-- The `expires_at` computed by the create endpoint (source line 60):
`datetime.utcnow() + timedelta(days=7)`, in seconds. -/
def api_create_expires_at (now : Nat) : Nat := now + 7 * 24 * 60 * 60

/-- The body of `PreviewStatusResponse`. -/
structure PreviewStatusResponse where
  status : String
  preview_images_urls : Option (List String)
  error_message : Option String
deriving DecidableEq

/-- `GET /previews/{token}` (source lines 94-119): 404 when no row exists,
410 Gone when the stored expiry is in the past, otherwise the stored
status, image URLs and error message. -/
def get_preview_status (db : List PreviewRow) (token : String) (now : Nat) :
    Except (Nat × String) PreviewStatusResponse :=
  match PreviewRepository.get_by_token db token with
  | none => Except.error (404, "Preview not found")
  | some p =>
      if p.expires_at < now then Except.error (410, "Preview expired")
      else Except.ok { status := p.preview_status,
                       preview_images_urls := p.swapped_images_paths,
                       error_message := p.error_message }

/-- `POST /{token}/phone_number` (source lines 122-153): 404 when no row
exists, 400 when the preview already completed; no expiry check at all. -/
def add_contact_for_notification (db : List PreviewRow) (token : String) :
    Except (Nat × String) String :=
  match PreviewRepository.get_by_token db token with
  | none => Except.error (404, "Preview not found")
  | some p =>
      if p.preview_status == "completed" then
        Except.error (400, "Preview already completed. Please use support icons to contact us.")
      else Except.ok token

/-- Unfolding lemma: the status endpoint on a found row. -/
theorem get_preview_status_found {db : List PreviewRow} {token : String}
    {now : Nat} {p : PreviewRow}
    (hp : PreviewRepository.get_by_token db token = some p) :
    get_preview_status db token now =
      (if p.expires_at < now then Except.error (410, "Preview expired")
       else Except.ok { status := p.preview_status,
                        preview_images_urls := p.swapped_images_paths,
                        error_message := p.error_message }) := by
  unfold get_preview_status
  rw [hp]

/-- Unfolding lemma: the contact endpoint on a found row. -/
theorem add_contact_found {db : List PreviewRow} {token : String} {p : PreviewRow}
    (hp : PreviewRepository.get_by_token db token = some p) :
    add_contact_for_notification db token =
      (if p.preview_status == "completed" then
        Except.error ((400 : Nat),
          "Preview already completed. Please use support icons to contact us.")
       else Except.ok token) := by
  unfold add_contact_for_notification
  rw [hp]

/-- A persisted but expired preview row used by the claim C8 theorems. -/
def c8Row : PreviewRow :=
  { id := 1, book_id := 2, preview_token := "tok", child_name := "kid",
    original_photo_path := "up.jpg", preview_status := "processing",
    swapped_images_paths := none, error_message := none,
    cartoon_photo_path := none, expires_at := 100 }

/-- C8 counterexample: a preview whose 7-day window has elapsed (expiry
100, now 200) is still returned by the repository read path
`get_by_token`, and the contact endpoint serves it normally; the status
endpoint rejects it, but with 410 Gone rather than not-found.  Not every
read path treats an expired preview as not-found. -/
theorem c8_expired_preview_still_served :
    PreviewRepository.get_by_token [c8Row] ("tok") = some c8Row ∧
    c8Row.expires_at < 200 ∧
    add_contact_for_notification [c8Row] ("tok") = Except.ok ("tok") ∧
    get_preview_status [c8Row] ("tok") 200 = Except.error (410, "Preview expired") ∧
    (410, "Preview expired") ≠ ((404 : Nat), "Preview not found") := by
  refine ⟨by decide, by decide, rfl, rfl, by decide⟩

/-- C8 (amended): previews expire 7 days after creation, but only the
status-polling endpoint checks the expiry - it answers 410 Gone (not
404) for an expired row - while the repository `get_by_token` and the
contact endpoint use the persisted row regardless of expiry. -/
theorem c8_expiry_only_in_status_endpoint :
    (∀ now : Nat, api_create_expires_at now = now + 7 * 24 * 60 * 60)
    ∧ (∀ (db : List PreviewRow) (token : String) (now : Nat) (p : PreviewRow),
        PreviewRepository.get_by_token db token = some p → p.expires_at < now →
        get_preview_status db token now = Except.error (410, "Preview expired"))
    ∧ (∀ (db : List PreviewRow) (token : String) (p : PreviewRow),
        PreviewRepository.get_by_token db token = some p →
        (p.preview_status == "completed") = false →
        add_contact_for_notification db token = Except.ok token) := by
  refine ⟨fun _ => rfl, ?_, ?_⟩
  · intro db token now p hp hlt
    rw [get_preview_status_found hp, if_pos hlt]
  · intro db token p hp hstat
    rw [add_contact_found hp, hstat]
    rfl

/-- Witness for `c8_expiry_only_in_status_endpoint`: the concrete expired
row is rejected by the status endpoint and served by the contact
endpoint. -/
theorem c8_expiry_only_in_status_endpoint_witness :
    get_preview_status [c8Row] ("tok") 200 = Except.error (410, "Preview expired") ∧
    add_contact_for_notification [c8Row] ("tok") = Except.ok ("tok") := by
  constructor
  · exact c8_expiry_only_in_status_endpoint.2.1 [c8Row] ("tok") 200 c8Row
      (by decide) (by decide)
  · exact c8_expiry_only_in_status_endpoint.2.2 [c8Row] ("tok") c8Row
      (by decide) (by decide)

/-- C10 counterexample: `update_status` is called with a supplied empty
image-path list, but the Python truthiness test `if swapped_images_paths`
stores NULL instead of the supplied empty array. -/
theorem c10_supplied_empty_list_becomes_null :
    (PreviewRepository.update_status
        { id := 1, book_id := 2, preview_token := "tok", child_name := "kid",
          original_photo_path := "up.jpg", preview_status := "processing",
          swapped_images_paths := some ["old.png"], error_message := none,
          cartoon_photo_path := some "c.jpg", expires_at := 100 }
        ("completed") (some []) none none).swapped_images_paths = none ∧
    some ([] : List String) ≠ (none : Option (List String)) := by
  exact ⟨rfl, by decide⟩

/-- C10 (amended): every call to `PreviewRepository.update_status`
overwrites all four of status, image paths, error message and cartoon
path from the arguments alone (the previous row values never survive),
with omitted arguments written as NULL - and also a supplied *empty*
image-path list written as NULL (Python truthiness).  Hence marking a
preview failed clears stored image paths and cartoon path, and marking it
completed clears a stored error message.  All other columns are
untouched. -/
theorem c10_update_status_overwrites :
    ∀ (row : PreviewRow) (s : String) (sw : Option (List String))
      (em cp : Option String),
    (PreviewRepository.update_status row s sw em cp).preview_status = s
    ∧ (PreviewRepository.update_status row s sw em cp).error_message = em
    ∧ (PreviewRepository.update_status row s sw em cp).cartoon_photo_path = cp
    ∧ (PreviewRepository.update_status row s sw em cp).swapped_images_paths =
        (match sw with
         | some (p :: ps) => some (p :: ps)
         | _ => none)
    ∧ (PreviewRepository.update_status row s sw em cp).id = row.id
    ∧ (PreviewRepository.update_status row s sw em cp).preview_token = row.preview_token
    ∧ (PreviewRepository.update_status row s sw em cp).expires_at = row.expires_at
    ∧ (PreviewRepository.update_status row ("failed") none em none).swapped_images_paths
        = none
    ∧ (PreviewRepository.update_status row ("failed") none em none).cartoon_photo_path
        = none
    ∧ (PreviewRepository.update_status row ("completed") sw none cp).error_message
        = none := by
  intro row s sw em cp
  refine ⟨rfl, rfl, rfl, rfl, rfl, rfl, rfl, rfl, rfl, rfl⟩

/-! ## Face swap client: services/faceswap_service.py -/

/-- The JSON body of one poll of the Fotor task endpoint:
`data.status` (1 = completed, -1 = failed, anything else = pending),
`data.resultUrl` and `data.message`, each possibly missing. -/
structure PollReply where
  status : Option Int
  resultUrl : Option String
  message : Option String

/-- `FaceSwapService.MAX_RETRIES` (source line 21). -/
def MAX_RETRIES : Nat := 30

/-- The poll loop of `swap_face` (source lines 79-113), with the remaining
retry budget as fuel.  `poll n` is the transport outcome of the n-th GET;
`download` the transport outcome of fetching the result image and writing
it to disk.  Exhausting the budget raises the 150-second timeout error. -/
def pollLoop (poll : Nat → Except String PollReply) (download : Except String Unit)
    (output_dir task_id : String) : Nat → Nat → Except String String
  | _, 0 => Except.error ("Face swap timed out after 150 seconds")
  | attempt, fuel + 1 =>
      match poll attempt with
      | Except.error e => Except.error e
      | Except.ok reply =>
          match reply.status with
          | some 1 =>
              match reply.resultUrl with
              | some _ =>
                  match download with
                  | Except.error e => Except.error e
                  | Except.ok _ =>
                      Except.ok (output_dir ++ "/swapped_" ++ task_id ++ ".jpg")
              | none => Except.error ("KeyError: resultUrl")
          | some (-1) =>
              match reply.message with
              | some msg => Except.error ("Face swap failed: " ++ msg)
              | none => Except.error ("Face swap failed: " ++ "Unknown error")
          | _ => pollLoop poll download output_dir task_id (attempt + 1) fuel

/-- `FaceSwapService.swap_face` (source lines 41-117), modelled at its await
boundaries: `submit` is the outcome of the POST (the extracted `taskId`, or
the transport/`ValueError` failure for a malformed response); then the poll
loop runs for at most `MAX_RETRIES` attempts.  Every failure is re-raised
to the caller (the final `except` logs and re-raises). -/
def swap_face (submit : Except String String) (poll : Nat → Except String PollReply)
    (download : Except String Unit) (output_dir : String) : Except String String :=
  match submit with
  | Except.error e => Except.error e
  | Except.ok task_id => pollLoop poll download output_dir task_id 0 MAX_RETRIES

/-! ## Pipeline orchestrator:
services/preview_generation_service.py and
services/full_book_generation_service.py -/

/-- The per-image external-world outcomes consumed by
`_process_single_image`, `swap_face` and `composite_face` for one
extracted image. -/
structure ImgOracles where
  pathExists : Bool
  width : Nat
  height : Nat
  cvLoaded : Option (Int × Int)
  det : Option (List RawBox)
  faceEmb : Nat → Option (List ℚ)
  swapSubmit : Except String String
  swapPoll : Nat → Except String PollReply
  swapDownload : Except String Unit
  composite : Except String String

/-- One extracted image together with its oracles. -/
structure ImgEnv where
  slide_idx : Nat
  shape_id : Nat
  file_path : String
  oracles : ImgOracles

/-- Attach the per-image oracles (keyed by slide index and shape id) to
the extraction records. -/
def mkImgEnvs (oracles : Nat → Nat → ImgOracles) (recs : List ExtractRec) : List ImgEnv :=
  recs.map (fun r => { slide_idx := r.slide_idx, shape_id := r.shape_id,
                       file_path := r.file_path, oracles := oracles r.slide_idx r.shape_id })

/-- The dictionary returned by `_process_single_image` for a matched image
(source lines 72-79). -/
structure ValidResult where
  slide_idx : Nat
  shape_id : Nat
  img_path : String
  protagonist_crop : MatchResult
  idx : Nat
  oracles : ImgOracles

/-- `PreviewGenerationService._process_single_image` (source lines 28-83):
skip a missing file, skip a small decorative image (under 350 pixels in
either dimension), then run the identity matcher; `None` in each skip case
and on no match (the outer `except` is covered by the oracles). -/
def process_single_image (idx : Nat) (e : ImgEnv) (refs : List (List ℚ)) :
    Option ValidResult :=
  if e.oracles.pathExists = false then none
  else if e.oracles.width < 350 ∨ e.oracles.height < 350 then none
  else
    match isolate_protagonist_face e.file_path e.oracles.cvLoaded e.oracles.det
        e.oracles.faceEmb refs with
    | none => none
    | some m =>
        some { slide_idx := e.slide_idx, shape_id := e.shape_id, img_path := e.file_path,
               protagonist_crop := m, idx := idx, oracles := e.oracles }

/-- STEP 1 of `process_and_swap_faces` (source lines 100-114): gather the
per-image results in order and drop the `None`s. -/
def validResults (imgs : List ImgEnv) (refs : List (List ℚ)) : List ValidResult :=
  imgs.enum.filterMap (fun p => process_single_image p.1 p.2 refs)

/-- `asyncio.gather` without `return_exceptions`: if any task raises, the
whole gather raises (list order stands in for completion order; which of
several failures is propagated does not matter for any property below). -/
def gatherStrict {α : Type} : List (Except String α) → Except String (List α)
  | [] => Except.ok []
  | Except.error e :: _ => Except.error e
  | Except.ok a :: rest =>
      match gatherStrict rest with
      | Except.error e => Except.error e
      | Except.ok as => Except.ok (a :: as)

/-- The swap task created for one matched image (source lines 127-135). -/
def runSwap (v : ValidResult) : Except String String :=
  swap_face v.oracles.swapSubmit v.oracles.swapPoll v.oracles.swapDownload ("swapped")

/-- One record of the metadata list returned by `process_and_swap_faces`. -/
structure SwapMeta where
  slide_idx : Nat
  shape_id : Nat
  swapped_path : String
deriving DecidableEq

/-- STEP 3 of `process_and_swap_faces`: the composite fan-out (also a bare
`asyncio.gather`; `composite_face` re-raises on error) and the metadata
zip (source lines 138-161). -/
def pasfComposited (valid : List ValidResult) :
    Except String (List String) → Except String (List SwapMeta)
  | Except.error e => Except.error e
  | Except.ok finalPaths =>
      Except.ok (List.zipWith
        (fun v q => { slide_idx := v.slide_idx, shape_id := v.shape_id,
                      swapped_path := q })
        valid finalPaths)

/-- STEP 2 of `process_and_swap_faces`: the swap fan-out.  The gather has
no `return_exceptions=True`, so one failed swap task aborts the whole
stage with that exception. -/
def pasfSwapped (valid : List ValidResult) :
    Except String (List String) → Except String (List SwapMeta)
  | Except.error e => Except.error e
  | Except.ok _swapped =>
      pasfComposited valid (gatherStrict (valid.map (fun v => v.oracles.composite)))

/-- The body of `process_and_swap_faces` over the filtered valid results:
zero matched images raise `No faces could be swapped` (source lines
116-117). -/
def pasfValid : List ValidResult → Except String (List SwapMeta)
  | [] => Except.error ("No faces could be swapped")
  | v :: vs => pasfSwapped (v :: vs) (gatherStrict ((v :: vs).map runSwap))

/-- `PreviewGenerationService.process_and_swap_faces` (source lines
86-169), shared by the preview and full-book workflows.  The progress
callback receives the final metadata length; it is modelled at the
orchestrator call sites. -/
def process_and_swap_faces (imgs : List ImgEnv) (refs : List (List ℚ)) :
    Except String (List SwapMeta) :=
  pasfValid (validResults imgs refs)

/-- The (slide_idx, shape_id) keys of the images for which a swap-provider
task is created in STEP 2: exactly the valid results. -/
def swapRequests (imgs : List ImgEnv) (refs : List (List ℚ)) : List (Nat × Nat) :=
  (validResults imgs refs).map (fun v => (v.slide_idx, v.shape_id))

/-- `np.mean(vectors, axis=0)`: componentwise sum divided by the count. -/
def vecSum : List (List ℚ) → List ℚ
  | [] => []
  | [v] => v
  | v :: w :: rest => List.zipWith (fun a b => a + b) v (vecSum (w :: rest))

/-- Componentwise mean of a list of embedding vectors. -/
def vecMean (vs : List (List ℚ)) : List ℚ :=
  (vecSum vs).map (fun a => a / (vs.length : ℚ))

/-- `PreviewGenerationService.PREVIEW_PAGES_COUNT` (source line 25). -/
def PREVIEW_PAGES_COUNT : Nat := 4

/-- A book row as the orchestrators read it: id, hero name and the parsed
reference image paths. -/
structure Book where
  id : Nat
  hero_name : String
  reference_paths : List String

/-- The external-world outcomes consumed by one run of
`generate_preview`, stage by stage in source order. -/
structure PreviewEnv where
  preview_id : Nat
  preview_token : String
  book_id : Nat
  child_name : String
  book : Option Book
  refExists : String → Bool
  templateExists : Bool
  cartoonify : Except String Unit
  textReplace : Except String Unit
  document : Except String (List (List Shape))
  refEmbed : String → Option (List ℚ)
  imgOracles : Nat → Nat → ImgOracles
  replaceImages : Except String Unit
  convert : Except String (List String)
  notify : Except String Unit

/-- Stages of `generate_preview` before the swap fan-out (source lines
184-273), in order: book lookup, configured reference paths, existing
reference paths, template existence, cartoonification, text substitution,
opening and extracting the document (first `PREVIEW_PAGES_COUNT` slides),
the non-empty-extraction check, reference embeddings and their mean.
Returns the per-image environments, the reference set passed to the
matcher (the single averaged embedding) and the cartoon photo path. -/
def runPreviewPreSwap (env : PreviewEnv) :
    Except String (List ImgEnv × List (List ℚ) × String) :=
  match env.book with
  | none => Except.error ("Book " ++ toString env.book_id ++ " not found")
  | some book =>
    if book.reference_paths.isEmpty then
      Except.error ("No reference images configured for book " ++ toString env.book_id)
    else
      let valid_references := book.reference_paths.filter (fun q => env.refExists q)
      if valid_references.isEmpty then Except.error ("No reference images found")
      else if env.templateExists = false then Except.error ("Template not found")
      else
        match env.cartoonify with
        | Except.error e => Except.error e
        | Except.ok _ =>
          match env.textReplace with
          | Except.error e => Except.error e
          | Except.ok _ =>
            match env.document with
            | Except.error e => Except.error e
            | Except.ok slides =>
              let extracted := extract_images_from_slides slides (some PREVIEW_PAGES_COUNT)
              if extracted.isEmpty then Except.error ("No images extracted from template")
              else
                let embs := valid_references.filterMap env.refEmbed
                if embs.isEmpty then Except.error ("No valid reference images")
                else
                  Except.ok (mkImgEnvs env.imgOracles extracted, [vecMean embs],
                    "previews/" ++ env.preview_token ++ "/cartoon_photo.jpg")

/-- STEP 6 of `generate_preview`: slide conversion and URL building
(source lines 292-306). -/
def previewAfterConvert (cartoonPath : String) :
    Except String (List String) → Except String (List String × String)
  | Except.error e => Except.error e
  | Except.ok slideImages =>
      Except.ok (slideImages.map (fun q => "/" ++ q), cartoonPath)

/-- STEP 5 of `generate_preview`: writing the swapped images back into the
document (source lines 284-288). -/
def previewAfterReplace (env : PreviewEnv) (cartoonPath : String) :
    Except String Unit → Except String (List String × String)
  | Except.error e => Except.error e
  | Except.ok _ => previewAfterConvert cartoonPath env.convert

/-- After the swap stage: image substitution, then conversion. -/
def previewAfterSwap (env : PreviewEnv) (cartoonPath : String) :
    Except String (List SwapMeta) → Except String (List String × String)
  | Except.error e => Except.error e
  | Except.ok _meta => previewAfterReplace env cartoonPath env.replaceImages

/-- After the pre-swap stages: the shared match/swap/composite stage, then
the tail stages. -/
def previewAfterPre (env : PreviewEnv) :
    Except String (List ImgEnv × List (List ℚ) × String) →
      Except String (List String × String)
  | Except.error e => Except.error e
  | Except.ok (imgs, refs, cartoonPath) =>
      previewAfterSwap env cartoonPath (process_and_swap_faces imgs refs)

/-- The whole `try` body of `generate_preview`: the stages in order, short
circuiting on the first raised exception. -/
def runPreviewStages (env : PreviewEnv) : Except String (List String × String) :=
  previewAfterPre env (runPreviewPreSwap env)

/-- The WhatsApp notification sits inside the `try` after the `completed`
update (source line 315): if it raises, the `except` arm runs the `failed`
update on top of the already-completed row. -/
def previewNotify (env : PreviewEnv) (row1 : PreviewRow) : PreviewRow :=
  match env.notify with
  | Except.ok _ => row1
  | Except.error e =>
      PreviewRepository.update_status row1 ("failed") none (some e) none

/-- `PreviewGenerationService.generate_preview` (source lines 172-328):
run the stages; on success persist `completed` with the slide URLs and the
cartoon photo path and send the notification; on any exception persist
`failed` with `str(e)` - untruncated - and never re-raise (the function
is total: it always returns the final row). -/
def generate_preview (env : PreviewEnv) (row : PreviewRow) : PreviewRow :=
  match runPreviewStages env with
  | Except.error e =>
      PreviewRepository.update_status row ("failed") none (some e) none
  | Except.ok (urls, cartoonPath) =>
      previewNotify env
        (PreviewRepository.update_status row ("completed") (some urls) none
          (some cartoonPath))

/-- The external-world outcomes consumed by one run of
`generate_full_book`, stage by stage in source order. -/
structure FullBookEnv where
  order_id : Nat
  preview_token : String
  child_name : String
  previewDb : List PreviewRow
  book : Option Book
  previewSwappedFiles : List String
  templateExists : Bool
  textReplace : Except String Unit
  document : Except String (List (List Shape))
  refExists : String → Bool
  refEmbed : String → Option (List ℚ)
  imgOracles : Nat → Nat → ImgOracles
  replaceImages : Except String Unit
  convertPdf : Except String String

/-- Stages of `generate_full_book` before the swap fan-out (source lines
36-123): preview lookup (must be `completed`), book lookup, template
existence, text substitution, opening the document and extracting images
from ALL slides (`max_slides=None` - the first `PREVIEW_PAGES_COUNT`
preview pages included, see the STEP 4 comment in the source), existing
reference paths and their embeddings.  STEP 3 of the source copies the
preview files listed in `previewSwappedFiles` into the output directory;
that copy influences nothing that follows and produces no metadata.  The
reference list is passed through unaveraged (the per-vector normalisation
`emb / np.linalg.norm(emb)` is absorbed into the embedding oracle, since
the embeddings are opaque external reals). -/
def runFullBookPreSwap (env : FullBookEnv) :
    Except String (List ImgEnv × List (List ℚ)) :=
  match PreviewRepository.get_by_token env.previewDb env.preview_token with
  | none => Except.error ("Preview not ready: " ++ env.preview_token)
  | some preview =>
    if preview.preview_status ≠ "completed" then
      Except.error ("Preview not ready: " ++ env.preview_token)
    else
      match env.book with
      | none => Except.error ("Book not found")
      | some book =>
        if env.templateExists = false then Except.error ("Template not found")
        else
          match env.textReplace with
          | Except.error e => Except.error e
          | Except.ok _ =>
            match env.document with
            | Except.error e => Except.error e
            | Except.ok slides =>
              let extracted := extract_images_from_slides slides none
              let valid_references := book.reference_paths.filter (fun q => env.refExists q)
              if valid_references.isEmpty then Except.error ("No reference images found")
              else
                let embs := valid_references.filterMap env.refEmbed
                if embs.isEmpty then Except.error ("No valid reference images")
                else Except.ok (mkImgEnvs env.imgOracles extracted, embs)

/-- STEPS 7-9 of `generate_full_book`: image substitution, PDF conversion,
final paths (source lines 144-170). -/
def fullBookAfterProgress (env : FullBookEnv) (row2 : GeneratedBookRow)
    (meta : List SwapMeta) : GeneratedBookRow :=
  match env.replaceImages with
  | Except.error e => GeneratedBookRepository.update_status row2 ("failed") (some e)
  | Except.ok _ =>
      match env.convertPdf with
      | Except.error e => GeneratedBookRepository.update_status row2 ("failed") (some e)
      | Except.ok pdf =>
          GeneratedBookRepository.update_final_paths row2 ("final_book.pptx") pdf
            (meta.map (fun m => "/" ++ m.swapped_path))

/-- The full-book run from the swap stage on: the shared
`process_and_swap_faces`, the progress callback (count of swapped images
and the `max(1, (len(extracted) - completed) // 3)` estimate), then the
tail stages. -/
def fullBookResult (env : FullBookEnv) (row1 : GeneratedBookRow)
    (imgs : List ImgEnv) (refs : List (List ℚ)) : GeneratedBookRow :=
  match process_and_swap_faces imgs refs with
  | Except.error e => GeneratedBookRepository.update_status row1 ("failed") (some e)
  | Except.ok meta =>
      fullBookAfterProgress env
        (GeneratedBookRepository.update_progress row1 meta.length
          (max 1 ((imgs.length - meta.length) / 3)))
        meta

/-- `FullBookGenerationService.generate_full_book` (source lines 22-181):
mark processing started, run the stages, and on any exception persist
`failed` with the (truncated, see `GeneratedBookRepository.update_status`)
message; never re-raise.  The second component is the trace of
swap-provider submissions (slide_idx, shape_id) issued by STEP 2 of the
shared pipeline - empty when the run aborts before the swap stage. -/
def generate_full_book (env : FullBookEnv) (row : GeneratedBookRow) :
    GeneratedBookRow × List (Nat × Nat) :=
  let row1 := GeneratedBookRepository.mark_processing_started row
  match runFullBookPreSwap env with
  | Except.error e => (GeneratedBookRepository.update_status row1 ("failed") (some e), [])
  | Except.ok (imgs, refs) =>
      (fullBookResult env row1 imgs refs, swapRequests imgs refs)

/-- Unfolding lemma: a failed swap gather aborts `process_and_swap_faces`
with the swap exception (there is at least one valid result whenever the
gather fails, since an empty gather succeeds). -/
theorem pasf_gather_error (imgs : List ImgEnv) (refs : List (List ℚ)) (e : String)
    (hg : gatherStrict ((validResults imgs refs).map runSwap) = Except.error e) :
    process_and_swap_faces imgs refs = Except.error e := by
  cases hv : validResults imgs refs with
  | nil =>
      rw [hv] at hg
      simp [gatherStrict] at hg
  | cons v vs =>
      rw [hv] at hg
      show pasfValid (validResults imgs refs) = _
      rw [hv]
      show pasfSwapped (v :: vs) (gatherStrict ((v :: vs).map runSwap)) = _
      rw [hg]
      rfl

/-- Unfolding lemma: zero valid results raise the no-match error. -/
theorem pasf_empty (imgs : List ImgEnv) (refs : List (List ℚ))
    (hv : validResults imgs refs = []) :
    process_and_swap_faces imgs refs = Except.error ("No faces could be swapped") := by
  show pasfValid (validResults imgs refs) = _
  rw [hv]
  rfl

/-- Unfolding lemma: a pre-swap failure short-circuits the stages. -/
theorem runPreviewStages_pre_error (env : PreviewEnv) (e : String)
    (h : runPreviewPreSwap env = Except.error e) :
    runPreviewStages env = Except.error e := by
  show previewAfterPre env (runPreviewPreSwap env) = _
  rw [h]
  rfl

/-- Unfolding lemma: after a successful pre-swap, the stages continue with
the shared swap pipeline. -/
theorem runPreviewStages_pre_ok (env : PreviewEnv) (imgs : List ImgEnv)
    (refs : List (List ℚ)) (cp : String)
    (h : runPreviewPreSwap env = Except.ok (imgs, refs, cp)) :
    runPreviewStages env =
      previewAfterSwap env cp (process_and_swap_faces imgs refs) := by
  show previewAfterPre env (runPreviewPreSwap env) = _
  rw [h]
  rfl

/-- Unfolding lemma: any stage exception makes `generate_preview` persist
the failed status with the raw message. -/
theorem generate_preview_error (env : PreviewEnv) (row : PreviewRow) (e : String)
    (h : runPreviewStages env = Except.error e) :
    generate_preview env row =
      PreviewRepository.update_status row ("failed") none (some e) none := by
  unfold generate_preview
  rw [h]

/-- C1 (amended): when any matched image swap fails (provider failure
status, poll-count timeout or transport error), the bare `asyncio.gather`
of STEP 2 re-raises, the whole job aborts and is marked failed with the
swap error message; the surviving images are not composited and no
exception reaches the caller (`generate_preview` is total and always
returns the persisted row). -/
theorem c1_failed_swap_aborts_job (env : PreviewEnv) (row : PreviewRow)
    (imgs : List ImgEnv) (refs : List (List ℚ)) (cp e : String)
    (hpre : runPreviewPreSwap env = Except.ok (imgs, refs, cp))
    (hg : gatherStrict ((validResults imgs refs).map runSwap) = Except.error e) :
    generate_preview env row =
      PreviewRepository.update_status row ("failed") none (some e) none := by
  have hp : process_and_swap_faces imgs refs = Except.error e :=
    pasf_gather_error imgs refs e hg
  have hs : runPreviewStages env = Except.error e := by
    rw [runPreviewStages_pre_ok env imgs refs cp hpre, hp]
    rfl
  exact generate_preview_error env row e hs

/-- Whether an awaited task outcome is an exception. -/
def exceptIsError {α : Type} : Except String α → Bool
  | Except.error _ => true
  | Except.ok _ => false

/-- Three preview slides, one decodable picture each. -/
def c1Slides : List (List Shape) :=
  [[Shape.pic 1 true], [Shape.pic 1 true], [Shape.pic 1 true]]

/-- Per-image oracles for claim C1: every image exists, is large enough and
matches (single detected person); the swap of the image on slide 1 comes
back with provider status -1, the others complete. -/
def c1Oracles : Nat → Nat → ImgOracles := fun si _ =>
  { pathExists := true, width := 400, height := 400,
    cvLoaded := some (500, 500),
    det := some [{ x1 := 10, y1 := 10, x2 := 100, y2 := 100, cls := 0 }],
    faceEmb := fun _ => none,
    swapSubmit := Except.ok ("t1"),
    swapPoll := fun _ =>
      if si = 1 then
        Except.ok { status := some (-1), resultUrl := none, message := some ("boom") }
      else Except.ok { status := some 1, resultUrl := some ("u"), message := none },
    swapDownload := Except.ok (),
    composite := Except.ok ("out.jpg") }

/-- The claim C1 environment: a preview job with three matched images of
which exactly one swap fails. -/
def c1Env : PreviewEnv :=
  { preview_id := 11, preview_token := "tok1", book_id := 7, child_name := "kid",
    book := some { id := 7, hero_name := "Hero", reference_paths := ["r1.png"] },
    refExists := fun _ => true, templateExists := true,
    cartoonify := Except.ok (), textReplace := Except.ok (),
    document := Except.ok c1Slides,
    refEmbed := fun _ => some [0],
    imgOracles := c1Oracles,
    replaceImages := Except.ok (), convert := Except.ok (["s0.png"]),
    notify := Except.ok () }

/-- The preview row the claim C1 job runs against. -/
def c1Row : PreviewRow :=
  { id := 11, book_id := 7, preview_token := "tok1", child_name := "kid",
    original_photo_path := "up.jpg", preview_status := "processing",
    swapped_images_paths := none, error_message := none,
    cartoon_photo_path := none, expires_at := 1000 }

/-- The image environments the claim C1 pre-swap stage produces. -/
def c1Imgs : List ImgEnv :=
  mkImgEnvs c1Oracles (extract_images_from_slides c1Slides (some PREVIEW_PAGES_COUNT))

/-- The reference set the claim C1 pre-swap stage produces. -/
def c1Refs : List (List ℚ) := [vecMean [[0]]]

/-- C1 counterexample: three images match, exactly one of the three swap
tasks fails, yet the job does not complete with the surviving two images:
the whole job is marked failed and no swapped set is persisted. -/
theorem c1_single_swap_failure_fails_whole_job :
    (validResults c1Imgs c1Refs).length = 3 ∧
    (((validResults c1Imgs c1Refs).map runSwap).filter exceptIsError).length = 1 ∧
    (generate_preview c1Env c1Row).preview_status = "failed" ∧
    (generate_preview c1Env c1Row).swapped_images_paths = none ∧
    (generate_preview c1Env c1Row).error_message =
      some ("Face swap failed: boom") := by
  refine ⟨rfl, rfl, rfl, rfl, rfl⟩

/-- Witness for `c1_failed_swap_aborts_job` at the concrete claim C1
environment. -/
theorem c1_failed_swap_aborts_job_witness :
    generate_preview c1Env c1Row =
      PreviewRepository.update_status c1Row ("failed") none
        (some ("Face swap failed: boom")) none :=
  c1_failed_swap_aborts_job c1Env c1Row c1Imgs c1Refs
    ("previews/" ++ "tok1" ++ "/cartoon_photo.jpg") ("Face swap failed: boom")
    rfl rfl

/-- C3: a job in which no extracted image yields a successful protagonist
match fails with the explicit no-match message `No faces could be
swapped` and never reaches `completed`. -/
theorem c3_zero_matches_job_fails (env : PreviewEnv) (row : PreviewRow)
    (imgs : List ImgEnv) (refs : List (List ℚ)) (cp : String)
    (hpre : runPreviewPreSwap env = Except.ok (imgs, refs, cp))
    (hv : validResults imgs refs = []) :
    generate_preview env row =
      PreviewRepository.update_status row ("failed") none
        (some ("No faces could be swapped")) none
    ∧ (generate_preview env row).preview_status = "failed"
    ∧ (generate_preview env row).preview_status ≠ "completed" := by
  have hp := pasf_empty imgs refs hv
  have hs : runPreviewStages env = Except.error ("No faces could be swapped") := by
    rw [runPreviewStages_pre_ok env imgs refs cp hpre, hp]
    rfl
  have h1 := generate_preview_error env row ("No faces could be swapped") hs
  refine ⟨h1, ?_, ?_⟩
  · rw [h1]
    rfl
  · rw [h1]
    show ("failed" : String) ≠ "completed"
    decide

/-- A single preview slide with one picture for claim C3. -/
def c3Slides : List (List Shape) := [[Shape.pic 1 true]]

/-- Per-image oracles for claim C3: the image exists and is large enough,
but the detector finds no person at all, so no image matches. -/
def c3Oracles : Nat → Nat → ImgOracles := fun _ _ =>
  { pathExists := true, width := 400, height := 400,
    cvLoaded := some (500, 500),
    det := some [],
    faceEmb := fun _ => none,
    swapSubmit := Except.ok ("t1"),
    swapPoll := fun _ =>
      Except.ok { status := some 1, resultUrl := some ("u"), message := none },
    swapDownload := Except.ok (),
    composite := Except.ok ("out.jpg") }

/-- The claim C3 environment: every stage succeeds up to matching, and no
image yields a protagonist match. -/
def c3Env : PreviewEnv :=
  { preview_id := 31, preview_token := "tok3", book_id := 7, child_name := "kid",
    book := some { id := 7, hero_name := "Hero", reference_paths := ["r1.png"] },
    refExists := fun _ => true, templateExists := true,
    cartoonify := Except.ok (), textReplace := Except.ok (),
    document := Except.ok c3Slides,
    refEmbed := fun _ => some [0],
    imgOracles := c3Oracles,
    replaceImages := Except.ok (), convert := Except.ok (["s0.png"]),
    notify := Except.ok () }

/-- The preview row the claim C3 job runs against. -/
def c3Row : PreviewRow :=
  { id := 31, book_id := 7, preview_token := "tok3", child_name := "kid",
    original_photo_path := "up.jpg", preview_status := "processing",
    swapped_images_paths := none, error_message := none,
    cartoon_photo_path := none, expires_at := 1000 }

/-- The image environments the claim C3 pre-swap stage produces. -/
def c3Imgs : List ImgEnv :=
  mkImgEnvs c3Oracles (extract_images_from_slides c3Slides (some PREVIEW_PAGES_COUNT))

/-- The reference set the claim C3 pre-swap stage produces. -/
def c3Refs : List (List ℚ) := [vecMean [[0]]]

/-- Witness for `c3_zero_matches_job_fails` at the concrete claim C3
environment. -/
theorem c3_zero_matches_job_fails_witness :
    generate_preview c3Env c3Row =
      PreviewRepository.update_status c3Row ("failed") none
        (some ("No faces could be swapped")) none
    ∧ (generate_preview c3Env c3Row).preview_status = "failed"
    ∧ (generate_preview c3Env c3Row).preview_status ≠ "completed" :=
  c3_zero_matches_job_fails c3Env c3Row c3Imgs c3Refs
    ("previews/" ++ "tok3" ++ "/cartoon_photo.jpg") rfl rfl

/-- Per-image oracles in which every external call succeeds and every
image matches (single detected person). -/
def goodOracles : Nat → Nat → ImgOracles := fun _ _ =>
  { pathExists := true, width := 400, height := 400,
    cvLoaded := some (500, 500),
    det := some [{ x1 := 10, y1 := 10, x2 := 100, y2 := 100, cls := 0 }],
    faceEmb := fun _ => none,
    swapSubmit := Except.ok ("t1"),
    swapPoll := fun _ =>
      Except.ok { status := some 1, resultUrl := some ("u"), message := none },
    swapDownload := Except.ok (),
    composite := Except.ok ("out.jpg") }

/-- The error message of the claim C4 counterexample: its first sentence
ends early, so truncation would shorten it. -/
def c4Msg : String := "error one. error two"

/-- The claim C4 environment: the stylization call raises with `c4Msg`. -/
def c4Env : PreviewEnv :=
  { preview_id := 41, preview_token := "tok4", book_id := 7, child_name := "kid",
    book := some { id := 7, hero_name := "Hero", reference_paths := ["r1.png"] },
    refExists := fun _ => true, templateExists := true,
    cartoonify := Except.error (c4Msg), textReplace := Except.ok (),
    document := Except.ok [[Shape.pic 1 true]],
    refEmbed := fun _ => some [0],
    imgOracles := goodOracles,
    replaceImages := Except.ok (), convert := Except.ok (["s0.png"]),
    notify := Except.ok () }

/-- The preview row the claim C4 job runs against. -/
def c4Row : PreviewRow :=
  { id := 41, book_id := 7, preview_token := "tok4", child_name := "kid",
    original_photo_path := "up.jpg", preview_status := "processing",
    swapped_images_paths := none, error_message := none,
    cartoon_photo_path := none, expires_at := 1000 }

/-- C4 counterexample: a preview stage exception is persisted verbatim
(`str(e)`), although truncating it would change it - the preview
repository, unlike the generated-book repository, never calls
`truncate_error_message`. -/
theorem c4_preview_error_message_not_truncated :
    (generate_preview c4Env c4Row).error_message = some (c4Msg) ∧
    truncate_error_message (some (c4Msg)) 250 ≠ some (c4Msg) ∧
    (generate_preview c4Env c4Row).preview_status = "failed" := by
  refine ⟨rfl, by decide, rfl⟩

/-- The PDF-conversion stage of the full-book `try` body (STEP 8). -/
def fbStagesConvert (meta : List SwapMeta) :
    Except String String → Except String (List SwapMeta × String)
  | Except.error e => Except.error e
  | Except.ok pdf => Except.ok (meta, pdf)

/-- The image-substitution stage of the full-book `try` body (STEP 7),
then conversion. -/
def fbStagesReplace (env : FullBookEnv) (meta : List SwapMeta) :
    Except String Unit → Except String (List SwapMeta × String)
  | Except.error e => Except.error e
  | Except.ok _ => fbStagesConvert meta env.convertPdf

/-- The shared swap/composite stage of the full-book `try` body (STEP 6),
then the tail stages. -/
def fbStagesSwap (env : FullBookEnv) :
    Except String (List SwapMeta) → Except String (List SwapMeta × String)
  | Except.error e => Except.error e
  | Except.ok meta => fbStagesReplace env meta env.replaceImages

/-- After the pre-swap stages of the full-book `try` body. -/
def fbStagesPre (env : FullBookEnv) :
    Except String (List ImgEnv × List (List ℚ)) →
      Except String (List SwapMeta × String)
  | Except.error e => Except.error e
  | Except.ok (imgs, refs) => fbStagesSwap env (process_and_swap_faces imgs refs)

/-- The whole `try` body of `generate_full_book` as an exception-carrying
composition of its stages, exactly parallel to `runPreviewStages`: it
yields `Except.error e` precisely when some stage of the full-book run -
pre-swap checks, the swap/composite fan-out, image substitution or PDF
conversion - raises `e`. -/
def runFullBookStages (env : FullBookEnv) : Except String (List SwapMeta × String) :=
  fbStagesPre env (runFullBookPreSwap env)

/-- C4 (amended): any unhandled stage exception, at any stage of either
workflow (`runPreviewStages` and `runFullBookStages` span every stage),
aborts the remaining stages and marks the job failed, and neither
orchestrator ever re-raises (both are total and always return a terminal
`completed` or `failed` row); the Full-Book repository truncates the
persisted message, while the Preview repository persists the raw `str(e)`
untruncated. -/
theorem c4_orchestrator_boundary :
    (∀ (env : PreviewEnv) (row : PreviewRow) (e : String),
      runPreviewStages env = Except.error e →
      generate_preview env row =
        PreviewRepository.update_status row ("failed") none (some e) none ∧
      (generate_preview env row).error_message = some e)
    ∧ (∀ (env : FullBookEnv) (row : GeneratedBookRow) (e : String),
      runFullBookPreSwap env = Except.error e →
      (generate_full_book env row).1 =
        GeneratedBookRepository.update_status
          (GeneratedBookRepository.mark_processing_started row) ("failed") (some e) ∧
      (generate_full_book env row).1.error_message =
        truncate_error_message (some e) 250)
    ∧ (∀ (env : PreviewEnv) (row : PreviewRow),
      (generate_preview env row).preview_status = "completed" ∨
      (generate_preview env row).preview_status = "failed")
    ∧ (∀ (env : FullBookEnv) (row : GeneratedBookRow),
      (generate_full_book env row).1.generation_status = "completed" ∨
      (generate_full_book env row).1.generation_status = "failed")
    ∧ (∀ (env : FullBookEnv) (row : GeneratedBookRow) (e : String),
      runFullBookStages env = Except.error e →
      (generate_full_book env row).1.generation_status = "failed" ∧
      (generate_full_book env row).1.error_message =
        truncate_error_message (some e) 250) := by
  refine ⟨?_, ?_, ?_, ?_, ?_⟩
  · intro env row e h
    have h1 := generate_preview_error env row e h
    refine ⟨h1, ?_⟩
    rw [h1]
    rfl
  · intro env row e h
    have h1 : (generate_full_book env row).1 =
        GeneratedBookRepository.update_status
          (GeneratedBookRepository.mark_processing_started row) ("failed") (some e) := by
      unfold generate_full_book
      rw [h]
    refine ⟨h1, ?_⟩
    rw [h1]
    rfl
  · intro env row
    rcases hS : runPreviewStages env with e | pair
    · right
      unfold generate_preview
      rw [hS]
      rfl
    · rcases pair with ⟨urls, cp⟩
      rcases hN : env.notify with e2 | u
      · right
        unfold generate_preview
        rw [hS]
        show (previewNotify env
          (PreviewRepository.update_status row ("completed") (some urls) none
            (some cp))).preview_status = "failed"
        unfold previewNotify
        rw [hN]
        rfl
      · left
        unfold generate_preview
        rw [hS]
        show (previewNotify env
          (PreviewRepository.update_status row ("completed") (some urls) none
            (some cp))).preview_status = "completed"
        unfold previewNotify
        rw [hN]
        rfl
  · intro env row
    rcases hpre : runFullBookPreSwap env with e | pair
    · right
      unfold generate_full_book
      rw [hpre]
      rfl
    · rcases pair with ⟨imgs, refs⟩
      rcases hp : process_and_swap_faces imgs refs with e2 | meta
      · right
        unfold generate_full_book
        rw [hpre]
        show (fullBookResult env (GeneratedBookRepository.mark_processing_started row)
          imgs refs).generation_status = "failed"
        unfold fullBookResult
        rw [hp]
        rfl
      · have hred : (generate_full_book env row).1 =
            fullBookAfterProgress env
              (GeneratedBookRepository.update_progress
                (GeneratedBookRepository.mark_processing_started row) meta.length
                (max 1 ((imgs.length - meta.length) / 3)))
              meta := by
          unfold generate_full_book
          rw [hpre]
          show (fullBookResult env (GeneratedBookRepository.mark_processing_started row)
            imgs refs) = _
          unfold fullBookResult
          rw [hp]
        rcases hr : env.replaceImages with e3 | u
        · right
          rw [hred]
          unfold fullBookAfterProgress
          rw [hr]
          rfl
        · rcases hc : env.convertPdf with e4 | pdf
          · right
            rw [hred]
            unfold fullBookAfterProgress
            rw [hr, hc]
            rfl
          · left
            rw [hred]
            unfold fullBookAfterProgress
            rw [hr, hc]
            rfl
  · intro env row e h
    rcases hpre : runFullBookPreSwap env with e0 | pair
    · have hs : runFullBookStages env = Except.error e0 := by
        show fbStagesPre env (runFullBookPreSwap env) = _
        rw [hpre]
        all_goals rfl
      rw [hs] at h
      injection h with he
      subst he
      have h1 : (generate_full_book env row).1 =
          GeneratedBookRepository.update_status
            (GeneratedBookRepository.mark_processing_started row) ("failed")
            (some e0) := by
        unfold generate_full_book
        rw [hpre]
      refine ⟨?_, ?_⟩
      · rw [h1]
        rfl
      · rw [h1]
        rfl
    · rcases pair with ⟨imgs, refs⟩
      have hredg : (generate_full_book env row).1 =
          fullBookResult env (GeneratedBookRepository.mark_processing_started row)
            imgs refs := by
        unfold generate_full_book
        rw [hpre]
      have hred : runFullBookStages env =
          fbStagesSwap env (process_and_swap_faces imgs refs) := by
        show fbStagesPre env (runFullBookPreSwap env) = _
        rw [hpre]
        all_goals rfl
      rcases hp : process_and_swap_faces imgs refs with e1 | meta
      · have hs : runFullBookStages env = Except.error e1 := by
          rw [hred, hp]
          all_goals rfl
        rw [hs] at h
        injection h with he
        subst he
        have h1 : (generate_full_book env row).1 =
            GeneratedBookRepository.update_status
              (GeneratedBookRepository.mark_processing_started row) ("failed")
              (some e1) := by
          rw [hredg]
          unfold fullBookResult
          rw [hp]
        refine ⟨?_, ?_⟩
        · rw [h1]
          rfl
        · rw [h1]
          rfl
      · have h2 : (generate_full_book env row).1 =
            fullBookAfterProgress env
              (GeneratedBookRepository.update_progress
                (GeneratedBookRepository.mark_processing_started row) meta.length
                (max 1 ((imgs.length - meta.length) / 3)))
              meta := by
          rw [hredg]
          unfold fullBookResult
          rw [hp]
        have hred2 : runFullBookStages env =
            fbStagesReplace env meta env.replaceImages := by
          rw [hred, hp]
          all_goals rfl
        rcases hr : env.replaceImages with e2 | u
        · have hs : runFullBookStages env = Except.error e2 := by
            rw [hred2, hr]
            all_goals rfl
          rw [hs] at h
          injection h with he
          subst he
          have h1 : (generate_full_book env row).1 =
              GeneratedBookRepository.update_status
                (GeneratedBookRepository.update_progress
                  (GeneratedBookRepository.mark_processing_started row) meta.length
                  (max 1 ((imgs.length - meta.length) / 3))) ("failed")
                (some e2) := by
            rw [h2]
            unfold fullBookAfterProgress
            rw [hr]
          refine ⟨?_, ?_⟩
          · rw [h1]
            rfl
          · rw [h1]
            rfl
        · have hred3 : runFullBookStages env =
              fbStagesConvert meta env.convertPdf := by
            rw [hred2, hr]
            all_goals rfl
          rcases hc : env.convertPdf with e3 | pdf
          · have hs : runFullBookStages env = Except.error e3 := by
              rw [hred3, hc]
              all_goals rfl
            rw [hs] at h
            injection h with he
            subst he
            have h1 : (generate_full_book env row).1 =
                GeneratedBookRepository.update_status
                  (GeneratedBookRepository.update_progress
                    (GeneratedBookRepository.mark_processing_started row) meta.length
                    (max 1 ((imgs.length - meta.length) / 3))) ("failed")
                  (some e3) := by
              rw [h2]
              unfold fullBookAfterProgress
              rw [hr, hc]
            refine ⟨?_, ?_⟩
            · rw [h1]
              rfl
            · rw [h1]
              rfl
          · have hs : runFullBookStages env = Except.ok (meta, pdf) := by
              rw [hred3, hc]
              all_goals rfl
            rw [hs] at h
            exact Except.noConfusion h

/-- The completed preview row referenced by the claim C4 full-book job. -/
def c4FbPreviewRow : PreviewRow :=
  { id := 42, book_id := 7, preview_token := "ptok4", child_name := "kid",
    original_photo_path := "up.jpg", preview_status := "completed",
    swapped_images_paths := some ["/previews/ptok4/slides/slide_0.png"],
    error_message := none, cartoon_photo_path := some ("c.jpg"),
    expires_at := 1000 }

/-- The claim C4 full-book environment: every stage up to and including
the swap/composite fan-out succeeds, and the PDF conversion - a stage
after the swap - raises with `c4Msg`. -/
def c4FbEnv : FullBookEnv :=
  { order_id := 6, preview_token := "ptok4", child_name := "kid",
    previewDb := [c4FbPreviewRow],
    book := some { id := 7, hero_name := "Hero", reference_paths := ["r1.png"] },
    previewSwappedFiles := [],
    templateExists := true, textReplace := Except.ok (),
    document := Except.ok [[Shape.pic 1 true]],
    refExists := fun _ => true, refEmbed := fun _ => some [0],
    imgOracles := goodOracles,
    replaceImages := Except.ok (), convertPdf := Except.error (c4Msg) }

/-- The generated-book row the claim C4 full-book job runs against. -/
def c4FbRow : GeneratedBookRow :=
  { order_id := 6, generation_status := "queued", error_message := none,
    characters_completed := 0, estimated_time_minutes := 5,
    final_pptx_path := none, final_pdf_path := none,
    swapped_images_paths := none }

/-- Witness for `c4_orchestrator_boundary`: the concrete preview job whose
stylization stage raises, and the concrete full-book job whose
post-swap PDF-conversion stage raises - both end failed, the full-book
one with the truncated message. -/
theorem c4_orchestrator_boundary_witness :
    (generate_preview c4Env c4Row =
      PreviewRepository.update_status c4Row ("failed") none (some c4Msg) none) ∧
    (generate_full_book c4FbEnv c4FbRow).1.generation_status = "failed" ∧
    (generate_full_book c4FbEnv c4FbRow).1.error_message =
      truncate_error_message (some c4Msg) 250 := by
  refine ⟨(c4_orchestrator_boundary.1 c4Env c4Row c4Msg rfl).1, ?_, ?_⟩
  · exact (c4_orchestrator_boundary.2.2.2.2 c4FbEnv c4FbRow c4Msg rfl).1
  · exact (c4_orchestrator_boundary.2.2.2.2 c4FbEnv c4FbRow c4Msg rfl).2

/-- C2 (amended): the Full-Book workflow copies the prior completed
Preview swapped files into its output directory, but then extracts and
reprocesses ALL pages (`max_slides=None`) through the shared
match/swap/composite pipeline: a swap-provider task is created for every
matched image of every page, the preview-covered pages included.  The
copied files never reduce the set of provider calls. -/
theorem c2_full_book_reprocesses_all_pages (env : FullBookEnv)
    (row : GeneratedBookRow) (imgs : List ImgEnv) (refs : List (List ℚ))
    (hpre : runFullBookPreSwap env = Except.ok (imgs, refs)) :
    ((generate_full_book env row).2 =
      (validResults imgs refs).map (fun v => (v.slide_idx, v.shape_id)))
    ∧ ∃ slides, env.document = Except.ok slides ∧
        imgs = mkImgEnvs env.imgOracles (extract_images_from_slides slides none) := by
  constructor
  · unfold generate_full_book
    rw [hpre]
    rfl
  · unfold runFullBookPreSwap at hpre
    repeat' split at hpre
    any_goals exact Except.noConfusion hpre
    dsimp only [] at hpre
    split at hpre
    · exact Except.noConfusion hpre
    · split at hpre
      · exact Except.noConfusion hpre
      · simp only [Except.ok.injEq, Prod.mk.injEq] at hpre
        exact ⟨_, by assumption, hpre.1.symm⟩

/-- Five full-book slides, one decodable picture each; the first
`PREVIEW_PAGES_COUNT` of them are the pages the preview covered. -/
def c2Slides : List (List Shape) :=
  [[Shape.pic 1 true], [Shape.pic 1 true], [Shape.pic 1 true],
   [Shape.pic 1 true], [Shape.pic 1 true]]

/-- The completed preview row the claim C2 full-book job references. -/
def c2PreviewRow : PreviewRow :=
  { id := 21, book_id := 7, preview_token := "ptok", child_name := "kid",
    original_photo_path := "up.jpg", preview_status := "completed",
    swapped_images_paths := some ["/previews/ptok/slides/slide_0.png"],
    error_message := none, cartoon_photo_path := some ("c.jpg"),
    expires_at := 1000 }

/-- The claim C2 environment: a full-book job whose referenced preview
completed, with its swapped files present on disk, and every external
call succeeding. -/
def c2Env : FullBookEnv :=
  { order_id := 5, preview_token := "ptok", child_name := "kid",
    previewDb := [c2PreviewRow],
    book := some { id := 7, hero_name := "Hero", reference_paths := ["r1.png"] },
    previewSwappedFiles := ["swapped_0.jpg", "swapped_1.jpg"],
    templateExists := true, textReplace := Except.ok (),
    document := Except.ok c2Slides,
    refExists := fun _ => true, refEmbed := fun _ => some [0],
    imgOracles := goodOracles,
    replaceImages := Except.ok (), convertPdf := Except.ok ("final.pdf") }

/-- The generated-book row the claim C2 job runs against. -/
def c2Row : GeneratedBookRow :=
  { order_id := 5, generation_status := "queued", error_message := none,
    characters_completed := 0, estimated_time_minutes := 5,
    final_pptx_path := none, final_pdf_path := none,
    swapped_images_paths := none }

/-- The image environments the claim C2 pre-swap stage produces: ALL five
slides. -/
def c2Imgs : List ImgEnv :=
  mkImgEnvs goodOracles (extract_images_from_slides c2Slides none)

/-- The reference set the claim C2 pre-swap stage produces. -/
def c2Refs : List (List ℚ) := [[0]]

/-- C2 counterexample: the referenced preview is completed and its swapped
files are present, yet the full-book run issues a swap-provider call for
the image on slide 0 - a preview-covered page (0 < PREVIEW_PAGES_COUNT) -
and indeed for all five pages. -/
theorem c2_preview_pages_get_new_swap_calls :
    PreviewRepository.get_by_token c2Env.previewDb c2Env.preview_token =
      some c2PreviewRow ∧
    c2PreviewRow.preview_status = "completed" ∧
    (0, 1) ∈ (generate_full_book c2Env c2Row).2 ∧
    0 < PREVIEW_PAGES_COUNT ∧
    (generate_full_book c2Env c2Row).2 =
      [(0, 1), (1, 1), (2, 1), (3, 1), (4, 1)] := by
  refine ⟨rfl, rfl, by decide, by decide, rfl⟩

/-- Witness for `c2_full_book_reprocesses_all_pages` at the concrete claim
C2 environment. -/
theorem c2_full_book_reprocesses_all_pages_witness :
    ((generate_full_book c2Env c2Row).2 =
      (validResults c2Imgs c2Refs).map (fun v => (v.slide_idx, v.shape_id)))
    ∧ ∃ slides, c2Env.document = Except.ok slides ∧
        c2Imgs = mkImgEnvs c2Env.imgOracles (extract_images_from_slides slides none) :=
  c2_full_book_reprocesses_all_pages c2Env c2Row c2Imgs c2Refs rfl

end Khayal
